import Mathlib

/-!
# learnvulkan: GPU context bootstrap (`src/main.cpp`)

A shallow embedding of the bootstrap and teardown code of `src/main.cpp`.

* Driver and windowing entry points are answered by a `Driver` record (a test
  double): every field is the answer the corresponding entry point gives.
* Every embedded function returns, next to its C++ result, the list of external
  calls it issued, in order (`Trace`).  Logging through `journal::*` is part of
  that trace.
* By-reference output parameters and the file-level statics
  (`debug_utils_messenger`, `app_context`) are passed in and returned explicitly.
* Handles are natural numbers, `VkResult` is an integer, `uint32_t` values are
  natural numbers.
-/

set_option autoImplicit false

/-! ## Constants of the Vulkan and GLFW headers used by the source

The headers `vulkan/vulkan.h` and `GLFW/glfw3.h` are not under `src/`; the constants
below carry the values those headers give them. -/

/-- A `VkResult` value: a C enumeration, so any 32 bit integer can be passed. -/
abbrev VkResult := Int

/-- Handles of the API are modelled as numbers. -/
abbrev VkInstance := Nat
abbrev VkPhysicalDevice := Nat
abbrev VkDevice := Nat
abbrev VkSurfaceKHR := Nat
abbrev VkQueue := Nat
abbrev VkDebugUtilsMessengerEXT := Nat
abbrev GLFWwindow := Nat
abbrev GLFWmonitor := Nat
/-- A `VkBool32`: zero is false, everything else is true. -/
abbrev VkBool32 := Nat

def VK_NULL_HANDLE : Nat := 0
def UINT32_MAX : Nat := 4294967295
def EXIT_FAILURE : Nat := 1
def EXIT_SUCCESS : Nat := 0

def VK_SUCCESS : VkResult := 0
def VK_NOT_READY : VkResult := 1
def VK_TIMEOUT : VkResult := 2
def VK_EVENT_SET : VkResult := 3
def VK_EVENT_RESET : VkResult := 4
def VK_INCOMPLETE : VkResult := 5
def VK_ERROR_OUT_OF_HOST_MEMORY : VkResult := -1
def VK_ERROR_OUT_OF_DEVICE_MEMORY : VkResult := -2
def VK_ERROR_INITIALIZATION_FAILED : VkResult := -3
def VK_ERROR_DEVICE_LOST : VkResult := -4
def VK_ERROR_MEMORY_MAP_FAILED : VkResult := -5
def VK_ERROR_LAYER_NOT_PRESENT : VkResult := -6
def VK_ERROR_EXTENSION_NOT_PRESENT : VkResult := -7
def VK_ERROR_FEATURE_NOT_PRESENT : VkResult := -8
def VK_ERROR_INCOMPATIBLE_DRIVER : VkResult := -9
def VK_ERROR_TOO_MANY_OBJECTS : VkResult := -10
def VK_ERROR_FORMAT_NOT_SUPPORTED : VkResult := -11
def VK_ERROR_FRAGMENTED_POOL : VkResult := -12
def VK_ERROR_UNKNOWN : VkResult := -13
def VK_ERROR_OUT_OF_POOL_MEMORY : VkResult := -1000069000
def VK_ERROR_INVALID_EXTERNAL_HANDLE : VkResult := -1000072003
def VK_ERROR_FRAGMENTATION : VkResult := -1000161000
def VK_ERROR_INVALID_OPAQUE_CAPTURE_ADDRESS : VkResult := -1000257000
def VK_ERROR_SURFACE_LOST_KHR : VkResult := -1000000000
def VK_ERROR_NATIVE_WINDOW_IN_USE_KHR : VkResult := -1000000001
def VK_SUBOPTIMAL_KHR : VkResult := 1000001003
def VK_ERROR_OUT_OF_DATE_KHR : VkResult := -1000001004
def VK_ERROR_INCOMPATIBLE_DISPLAY_KHR : VkResult := -1000003001
def VK_ERROR_VALIDATION_FAILED_EXT : VkResult := -1000011001
def VK_ERROR_INVALID_SHADER_NV : VkResult := -1000012000
def VK_ERROR_INVALID_DRM_FORMAT_MODIFIER_PLANE_LAYOUT_EXT : VkResult := -1000158000
def VK_ERROR_NOT_PERMITTED_EXT : VkResult := -1000174001
def VK_ERROR_FULL_SCREEN_EXCLUSIVE_MODE_LOST_EXT : VkResult := -1000255000

/-- Modelled from the spec: the status/error enumeration `VkResult` of the API
header `vulkan/vulkan.h`, which is not under `src/`.  These are the status codes
the header generation used by the source defines (its `switch` names
`VK_ERROR_UNKNOWN`, so the header is 1.2.131 or later), with the header's
numeric values. -/
def VkResult_enumeration : List VkResult :=
  [ VK_SUCCESS, VK_NOT_READY, VK_TIMEOUT, VK_EVENT_SET, VK_EVENT_RESET, VK_INCOMPLETE,
    VK_ERROR_OUT_OF_HOST_MEMORY, VK_ERROR_OUT_OF_DEVICE_MEMORY, VK_ERROR_INITIALIZATION_FAILED,
    VK_ERROR_DEVICE_LOST, VK_ERROR_MEMORY_MAP_FAILED, VK_ERROR_LAYER_NOT_PRESENT,
    VK_ERROR_EXTENSION_NOT_PRESENT, VK_ERROR_FEATURE_NOT_PRESENT, VK_ERROR_INCOMPATIBLE_DRIVER,
    VK_ERROR_TOO_MANY_OBJECTS, VK_ERROR_FORMAT_NOT_SUPPORTED, VK_ERROR_FRAGMENTED_POOL,
    VK_ERROR_UNKNOWN, VK_ERROR_OUT_OF_POOL_MEMORY, VK_ERROR_INVALID_EXTERNAL_HANDLE,
    VK_ERROR_FRAGMENTATION, VK_ERROR_INVALID_OPAQUE_CAPTURE_ADDRESS, VK_ERROR_SURFACE_LOST_KHR,
    VK_ERROR_NATIVE_WINDOW_IN_USE_KHR, VK_SUBOPTIMAL_KHR, VK_ERROR_OUT_OF_DATE_KHR,
    VK_ERROR_INCOMPATIBLE_DISPLAY_KHR, VK_ERROR_VALIDATION_FAILED_EXT, VK_ERROR_INVALID_SHADER_NV,
    VK_ERROR_INVALID_DRM_FORMAT_MODIFIER_PLANE_LAYOUT_EXT, VK_ERROR_NOT_PERMITTED_EXT,
    VK_ERROR_FULL_SCREEN_EXCLUSIVE_MODE_LOST_EXT ]

namespace Vulkan

def VK_TAG : String := "Vulkan"

/-- The `switch` of `error_string` (main.cpp 26-97): one `case` per status code, and
the empty string after the `switch`. -/
def error_string (res : VkResult) : String :=
  if res = VK_SUCCESS then "Success"
  else if res = VK_NOT_READY then "Not ready"
  else if res = VK_TIMEOUT then "Timeout"
  else if res = VK_EVENT_SET then "Event set"
  else if res = VK_EVENT_RESET then "Event reset"
  else if res = VK_INCOMPLETE then "Incomplete"
  else if res = VK_ERROR_OUT_OF_HOST_MEMORY then "Error out of host memory"
  else if res = VK_ERROR_OUT_OF_DEVICE_MEMORY then "Error out of device memory"
  else if res = VK_ERROR_INITIALIZATION_FAILED then "Error initialization failed"
  else if res = VK_ERROR_DEVICE_LOST then "Error device lost"
  else if res = VK_ERROR_MEMORY_MAP_FAILED then "Error memory map failed"
  else if res = VK_ERROR_LAYER_NOT_PRESENT then "Error layer not present"
  else if res = VK_ERROR_EXTENSION_NOT_PRESENT then "Error extension not present"
  else if res = VK_ERROR_FEATURE_NOT_PRESENT then "Error feature not present"
  else if res = VK_ERROR_INCOMPATIBLE_DRIVER then "Error incompatible driver"
  else if res = VK_ERROR_TOO_MANY_OBJECTS then "Error too many objects"
  else if res = VK_ERROR_FORMAT_NOT_SUPPORTED then "Error format not supported"
  else if res = VK_ERROR_FRAGMENTED_POOL then "Error fragmented pool"
  else if res = VK_ERROR_UNKNOWN then "Error unknown"
  else if res = VK_ERROR_OUT_OF_POOL_MEMORY then "Error out of pool memory"
  else if res = VK_ERROR_INVALID_EXTERNAL_HANDLE then "Error invalid external handle"
  else if res = VK_ERROR_FRAGMENTATION then "Error fragmentation"
  else if res = VK_ERROR_INVALID_OPAQUE_CAPTURE_ADDRESS then "Error invalid opaque capture address"
  else if res = VK_ERROR_SURFACE_LOST_KHR then "Error surface lost"
  else if res = VK_ERROR_NATIVE_WINDOW_IN_USE_KHR then "Error native window in use"
  else if res = VK_SUBOPTIMAL_KHR then "Suboptimal"
  else if res = VK_ERROR_OUT_OF_DATE_KHR then "Error out of date"
  else if res = VK_ERROR_INCOMPATIBLE_DISPLAY_KHR then "Error incompatible display"
  else if res = VK_ERROR_VALIDATION_FAILED_EXT then "Error validation failed"
  else if res = VK_ERROR_INVALID_SHADER_NV then "Error invalid shader NV"
  else if res = VK_ERROR_INVALID_DRM_FORMAT_MODIFIER_PLANE_LAYOUT_EXT then
    "Error invalid DRM format modifier plane layout"
  else if res = VK_ERROR_NOT_PERMITTED_EXT then "Error not permitted"
  else if res = VK_ERROR_FULL_SCREEN_EXCLUSIVE_MODE_LOST_EXT then
    "Error full screen exclusive mode lost"
  else ""

end Vulkan

/-! ## Data exchanged with the driver -/

def VK_QUEUE_GRAPHICS_BIT : Nat := 1
def VK_PHYSICAL_DEVICE_TYPE_DISCRETE_GPU : Nat := 2
def VK_FALSE : VkBool32 := 0
def VK_API_VERSION_1_0 : Nat := 4194304
def VK_EXT_DEBUG_UTILS_EXTENSION_NAME : String := "VK_EXT_debug_utils"
def VK_KHR_SWAPCHAIN_EXTENSION_NAME : String := "VK_KHR_swapchain"
def VK_DEBUG_UTILS_MESSAGE_SEVERITY_VERBOSE_BIT_EXT : Nat := 0x1
def VK_DEBUG_UTILS_MESSAGE_SEVERITY_INFO_BIT_EXT : Nat := 0x10
def VK_DEBUG_UTILS_MESSAGE_SEVERITY_WARNING_BIT_EXT : Nat := 0x100
def VK_DEBUG_UTILS_MESSAGE_SEVERITY_ERROR_BIT_EXT : Nat := 0x1000
def VK_DEBUG_UTILS_MESSAGE_TYPE_GENERAL_BIT_EXT : Nat := 0x1
def VK_DEBUG_UTILS_MESSAGE_TYPE_VALIDATION_BIT_EXT : Nat := 0x2
def VK_DEBUG_UTILS_MESSAGE_TYPE_PERFORMANCE_BIT_EXT : Nat := 0x4
def GLFW_CLIENT_API : Nat := 0x00022001
def GLFW_NO_API : Nat := 0
def GLFW_RESIZABLE : Nat := 0x00020003
def GLFW_VISIBLE : Nat := 0x00020004
def GLFW_FALSE : Nat := 0

/-- Modelled from the spec: the macro `VK_MAKE_VERSION` of the API header, which is not
under `src/`; it packs major, minor and patch into one 32 bit version. -/
def VK_MAKE_VERSION (major minor patch : Nat) : Nat :=
  ((major <<< 22) ||| (minor <<< 12) ||| patch) % 2 ^ 32

/-- Modelled from the spec: the macro `VK_VERSION_MAJOR` of the API header, which is not
under `src/`; it gives the API major version, the 32 bit version shifted right by 22. -/
def VK_VERSION_MAJOR (version : Nat) : Nat :=
  (version % 2 ^ 32) >>> 22

structure VkLayerProperties where
  layerName : String
deriving DecidableEq, Repr

structure VkExtensionProperties where
  extensionName : String
  specVersion : Nat
deriving DecidableEq, Repr

structure VkQueueFamilyProperties where
  queueFlags : Nat
  queueCount : Nat
deriving DecidableEq, Repr

/-- The fields of `VkPhysicalDeviceProperties` the source reads. -/
structure VkPhysicalDeviceProperties where
  apiVersion : Nat
  deviceID : Nat
  deviceType : Nat
  deviceName : String
  maxImageDimension2D : Nat
deriving DecidableEq, Repr

/-- The field of `VkPhysicalDeviceFeatures` the source reads. -/
structure VkPhysicalDeviceFeatures where
  geometryShader : VkBool32
deriving DecidableEq, Repr

structure VkApplicationInfo where
  pApplicationName : String
  applicationVersion : Nat
  pEngineName : String
  engineVersion : Nat
  apiVersion : Nat
deriving DecidableEq, Repr

structure VkInstanceCreateInfo where
  pApplicationInfo : VkApplicationInfo
  enabledExtensionCount : Nat
  ppEnabledExtensionNames : List String
  enabledLayerCount : Nat
  ppEnabledLayerNames : List String
deriving DecidableEq, Repr

/-- The callback field `pfnUserCallback` is always `debugCallback` and is left out. -/
structure VkDebugUtilsMessengerCreateInfoEXT where
  messageSeverity : Nat
  messageType : Nat
deriving DecidableEq, Repr

structure VkDeviceQueueCreateInfo where
  queueFamilyIndex : Nat
  queueCount : Nat
  pQueuePriorities : List ℚ
deriving DecidableEq

structure VkDeviceCreateInfo where
  queueCreateInfoCount : Nat
  pQueueCreateInfos : List VkDeviceQueueCreateInfo
  enabledExtensionCount : Nat
  ppEnabledExtensionNames : List String
deriving DecidableEq

/-- Severity of a `journal` entry. -/
inductive Level where
  | verbose | info | warning | error | critical
deriving DecidableEq, Repr

/-- One external call: a driver entry point, a windowing entry point, or an entry
handed to the logging sink (`journal`: level, tag, format string, arguments). -/
inductive Call where
  | vkEnumerateInstanceLayerProperties
  | glfwGetRequiredInstanceExtensions
  | vkCreateInstance (create_info : VkInstanceCreateInfo)
  | vkGetInstanceProcAddr (inst : VkInstance) (name : String)
  | vkCreateDebugUtilsMessengerEXT (inst : VkInstance) (create_info : VkDebugUtilsMessengerCreateInfoEXT)
  | vkDestroyDebugUtilsMessengerEXT (inst : VkInstance) (callback : VkDebugUtilsMessengerEXT)
  | vkEnumerateInstanceExtensionProperties
  | vkDestroyInstance (inst : VkInstance)
  | vkEnumeratePhysicalDevices (inst : VkInstance)
  | vkGetPhysicalDeviceProperties (physical_device : VkPhysicalDevice)
  | vkGetPhysicalDeviceFeatures (physical_device : VkPhysicalDevice)
  | vkGetPhysicalDeviceMemoryProperties (physical_device : VkPhysicalDevice)
  | vkGetPhysicalDeviceQueueFamilyProperties (physical_device : VkPhysicalDevice)
  | vkGetPhysicalDeviceSurfaceSupportKHR (physical_device : VkPhysicalDevice) (idx : Nat)
      (surface : VkSurfaceKHR)
  | vkCreateDevice (physical_device : VkPhysicalDevice) (create_info : VkDeviceCreateInfo)
  | vkDeviceWaitIdle (device : VkDevice)
  | vkDestroyDevice (device : VkDevice)
  | vkGetDeviceQueue (device : VkDevice) (family_index : Nat) (queue_index : Nat)
  | vkDestroySurfaceKHR (inst : VkInstance) (surface : VkSurfaceKHR)
  | glfwInit
  | glfwWindowHint (hint : Nat) (value : Nat)
  | glfwCreateWindow (width height : Nat) (title : String)
  | glfwGetError
  | glfwGetPrimaryMonitor
  | glfwGetVideoMode (monitor : GLFWmonitor)
  | glfwGetMonitorPos (monitor : GLFWmonitor)
  | glfwGetWindowSize (window : GLFWwindow)
  | glfwSetWindowPos (window : GLFWwindow) (x y : Int)
  | glfwSetCursorPos (window : GLFWwindow) (x y : ℚ)
  | glfwShowWindow (window : GLFWwindow)
  | glfwCreateWindowSurface (inst : VkInstance) (window : GLFWwindow)
  | glfwDestroyWindow (window : GLFWwindow)
  | glfwTerminate
  | journal (level : Level) (tag : String) (format : String) (args : List String)
deriving DecidableEq

abbrev Trace := List Call

/-- The answers of the driver and of the windowing library (a test double).

Two-call enumerations (`count` query, then `data` query) answer from one list: the
first call reports its length and the second call writes all of it, as the API
guarantees.  Where the source checks the status of an enumeration call, the status
of each of the two calls is a separate answer. -/
structure Driver where
  /-- What `vkEnumerateInstanceLayerProperties` reports. -/
  layers : List VkLayerProperties
  /-- What `glfwGetRequiredInstanceExtensions` reports. -/
  glfwExtensions : List String
  /-- Status of `vkCreateInstance` and the handle it writes. -/
  createInstance : VkResult × VkInstance
  /-- Whether `vkGetInstanceProcAddr` resolves the named entry point. -/
  procAddr : VkInstance → String → Bool
  /-- Status of `vkCreateDebugUtilsMessengerEXT` and the handle it writes, if any. -/
  createMessenger : VkResult × Option VkDebugUtilsMessengerEXT
  /-- Status of the count query of `vkEnumerateInstanceExtensionProperties`. -/
  extensionCountResult : VkResult
  /-- Status of the data query of `vkEnumerateInstanceExtensionProperties`. -/
  extensionDataResult : VkResult
  extensions : List VkExtensionProperties
  /-- Status of the count query of `vkEnumeratePhysicalDevices`. -/
  deviceCountResult : VkResult
  /-- Status of the data query of `vkEnumeratePhysicalDevices`. -/
  deviceDataResult : VkResult
  physicalDevices : List VkPhysicalDevice
  properties : VkPhysicalDevice → VkPhysicalDeviceProperties
  features : VkPhysicalDevice → VkPhysicalDeviceFeatures
  queueFamilies : VkPhysicalDevice → List VkQueueFamilyProperties
  /-- What `vkGetPhysicalDeviceSurfaceSupportKHR` writes to `pSupported`. -/
  surfaceSupport : VkPhysicalDevice → Nat → VkSurfaceKHR → VkBool32
  /-- Status of `vkCreateDevice` and the handle it writes. -/
  createDevice : VkResult × VkDevice
  deviceWaitIdle : VkResult
  deviceQueue : VkDevice → Nat → Nat → VkQueue
  /-- Result of `glfwCreateWindow`: `none` is the null pointer. -/
  createWindow : Option GLFWwindow
  errorDescription : String
  primaryMonitor : Option GLFWmonitor
  /-- Width and height of the video mode, `none` when `glfwGetVideoMode` gives null. -/
  videoMode : Option (Int × Int)
  monitorPos : Int × Int
  windowSize : Int × Int
  /-- Status of `glfwCreateWindowSurface` and the surface it writes. -/
  createWindowSurface : VkResult × VkSurfaceKHR

/-- Build-time configuration: the macros `NDEBUG` and `LUNAR_VALIDATION`, and
`APP_NAME` of `config.h`. -/
structure Build where
  NDEBUG : Bool
  LUNAR_VALIDATION : Bool
  APP_NAME : String
deriving DecidableEq, Repr

namespace Vulkan

/-- The constant `validation_layers_enabled` (main.cpp 20-24). -/
def validation_layers_enabled (b : Build) : Bool := !b.NDEBUG

namespace Debugging

/-- The constant `validation_layers` (main.cpp 100-104). -/
def validation_layers (b : Build) : List String :=
  if b.LUNAR_VALIDATION then ["VK_LAYER_LUNARG_standard_validation"]
  else ["VK_LAYER_KHRONOS_validation"]

/-- The callback `debugCallback` (main.cpp 108-122): the value returned and the
entries handed to the logging sink. -/
def debugCallback (messageSeverity : Nat) (_messageType : Nat) (pMessage : String) :
    VkBool32 × Trace :=
  if messageSeverity &&& VK_DEBUG_UTILS_MESSAGE_SEVERITY_VERBOSE_BIT_EXT ≠ 0 then
    (VK_FALSE, [Call.journal Level.verbose VK_TAG "\x7b\x7d" [pMessage]])
  else if messageSeverity &&& VK_DEBUG_UTILS_MESSAGE_SEVERITY_INFO_BIT_EXT ≠ 0 then
    (VK_FALSE, [Call.journal Level.info VK_TAG "\x7b\x7d" [pMessage]])
  else if messageSeverity &&& VK_DEBUG_UTILS_MESSAGE_SEVERITY_WARNING_BIT_EXT ≠ 0 then
    (VK_FALSE, [Call.journal Level.warning VK_TAG "\x7b\x7d" [pMessage]])
  else if messageSeverity &&& VK_DEBUG_UTILS_MESSAGE_SEVERITY_ERROR_BIT_EXT ≠ 0 then
    (VK_FALSE, [Call.journal Level.error VK_TAG "\x7b\x7d" [pMessage]])
  else
    (VK_FALSE, [])

/-- The helper `CreateDebugUtilsMessengerEXT` (main.cpp 124-132): the status, the
value of `*pCallback` afterwards, and the calls. -/
def CreateDebugUtilsMessengerEXT (drv : Driver) (inst : VkInstance)
    (pCreateInfo : VkDebugUtilsMessengerCreateInfoEXT) (pCallback : VkDebugUtilsMessengerEXT) :
    (VkResult × VkDebugUtilsMessengerEXT) × Trace :=
  if drv.procAddr inst "vkCreateDebugUtilsMessengerEXT" then
    ((drv.createMessenger.1, drv.createMessenger.2.getD pCallback),
     [Call.vkGetInstanceProcAddr inst "vkCreateDebugUtilsMessengerEXT",
      Call.vkCreateDebugUtilsMessengerEXT inst pCreateInfo])
  else
    ((VK_ERROR_EXTENSION_NOT_PRESENT, pCallback),
     [Call.vkGetInstanceProcAddr inst "vkCreateDebugUtilsMessengerEXT"])

/-- The helper `DestroyDebugUtilsMessengerEXT` (main.cpp 134-141). -/
def DestroyDebugUtilsMessengerEXT (drv : Driver) (inst : VkInstance)
    (callback : VkDebugUtilsMessengerEXT) : Trace :=
  if drv.procAddr inst "vkDestroyDebugUtilsMessengerEXT" then
    [Call.vkGetInstanceProcAddr inst "vkDestroyDebugUtilsMessengerEXT",
     Call.vkDestroyDebugUtilsMessengerEXT inst callback]
  else
    [Call.vkGetInstanceProcAddr inst "vkDestroyDebugUtilsMessengerEXT"]

/-- The function `Debugging::setup` (main.cpp 143-160): the result, the static
`debug_utils_messenger` afterwards, and the calls. -/
def setup (drv : Driver) (inst : VkInstance) (debug_utils_messenger : VkDebugUtilsMessengerEXT) :
    (Bool × VkDebugUtilsMessengerEXT) × Trace :=
  let create_info : VkDebugUtilsMessengerCreateInfoEXT :=
    { messageSeverity :=
        VK_DEBUG_UTILS_MESSAGE_SEVERITY_VERBOSE_BIT_EXT |||
          VK_DEBUG_UTILS_MESSAGE_SEVERITY_WARNING_BIT_EXT |||
          VK_DEBUG_UTILS_MESSAGE_SEVERITY_ERROR_BIT_EXT,
      messageType :=
        VK_DEBUG_UTILS_MESSAGE_TYPE_GENERAL_BIT_EXT |||
          VK_DEBUG_UTILS_MESSAGE_TYPE_VALIDATION_BIT_EXT |||
          VK_DEBUG_UTILS_MESSAGE_TYPE_PERFORMANCE_BIT_EXT }
  let r := CreateDebugUtilsMessengerEXT drv inst create_info debug_utils_messenger
  let res := r.1.1
  if res ≠ VK_SUCCESS then
    ((false, r.1.2), r.2 ++ [Call.journal Level.error VK_TAG "\x7b\x7d" [error_string res]])
  else
    ((true, r.1.2), r.2)

/-- The function `Debugging::cleanup` (main.cpp 162-164). -/
def cleanup (drv : Driver) (inst : VkInstance) (debug_utils_messenger : VkDebugUtilsMessengerEXT) :
    Trace :=
  DestroyDebugUtilsMessengerEXT drv inst debug_utils_messenger

end Debugging

/-- The inner loop of `check_validation_layer_support` (main.cpp 189-194): scan the
available layers until `strcmp` reports equality. -/
def layer_found (layer_name : String) : List VkLayerProperties → Bool
  | [] => false
  | layerProperties :: rest =>
    if layer_name = layerProperties.layerName then true else layer_found layer_name rest

/-- The outer loop of `check_validation_layer_support` (main.cpp 186-201). -/
def check_layers (available_layers : List VkLayerProperties) : List String → Bool
  | [] => true
  | layer_name :: rest =>
    if !layer_found layer_name available_layers then false
    else check_layers available_layers rest

/-- The function `check_validation_layer_support` (main.cpp 179-202). -/
def check_validation_layer_support (drv : Driver) (validation_layers : List String) :
    Bool × Trace :=
  let available_layers := drv.layers
  (check_layers available_layers validation_layers,
   [Call.vkEnumerateInstanceLayerProperties, Call.vkEnumerateInstanceLayerProperties])

/-- The function `required_extensions` (main.cpp 204-216). -/
def required_extensions (b : Build) (drv : Driver) : List String × Trace :=
  let extensions := drv.glfwExtensions
  if validation_layers_enabled b then
    (extensions ++ [VK_EXT_DEBUG_UTILS_EXTENSION_NAME], [Call.glfwGetRequiredInstanceExtensions])
  else
    (extensions, [Call.glfwGetRequiredInstanceExtensions])

/-- The result of `create_instance`: the optional it returns, the static
`debug_utils_messenger` afterwards, and the calls. -/
structure InstanceResult where
  result : Option VkInstance
  debug_utils_messenger : VkDebugUtilsMessengerEXT
  trace : Trace

/-- The logging loop over the supported extensions (main.cpp 274-276). -/
def log_extensions (supported_extensions : List VkExtensionProperties) : Trace :=
  supported_extensions.map fun ext =>
    Call.journal Level.verbose VK_TAG "\x7b\x7d : \x7b\x7d" [ext.extensionName, toString ext.specVersion]

/-- The function `create_instance` (main.cpp 218-279). -/
def create_instance (b : Build) (drv : Driver) (debug_utils_messenger : VkDebugUtilsMessengerEXT) :
    InstanceResult :=
  let chk : Bool × Trace :=
    if validation_layers_enabled b then check_validation_layer_support drv (Debugging.validation_layers b)
    else (true, [])
  if validation_layers_enabled b && !chk.1 then
    { result := none, debug_utils_messenger := debug_utils_messenger,
      trace := chk.2 ++ [Call.journal Level.error VK_TAG "\x7b\x7d" ["Validation layers not supported!"]] }
  else
    let app_info : VkApplicationInfo :=
      { pApplicationName := b.APP_NAME, applicationVersion := VK_MAKE_VERSION 1 0 0,
        pEngineName := "No Engine", engineVersion := VK_MAKE_VERSION 1 0 0,
        apiVersion := VK_API_VERSION_1_0 }
    let ext := required_extensions b drv
    let extensions := ext.1
    let create_info : VkInstanceCreateInfo :=
      if validation_layers_enabled b then
        { pApplicationInfo := app_info, enabledExtensionCount := extensions.length,
          ppEnabledExtensionNames := extensions,
          enabledLayerCount := (Debugging.validation_layers b).length % 2 ^ 32,
          ppEnabledLayerNames := Debugging.validation_layers b }
      else
        { pApplicationInfo := app_info, enabledExtensionCount := extensions.length,
          ppEnabledExtensionNames := extensions, enabledLayerCount := 0,
          ppEnabledLayerNames := [] }
    let t1 := chk.2 ++ ext.2 ++ [Call.vkCreateInstance create_info]
    let res := drv.createInstance.1
    if res ≠ VK_SUCCESS then
      { result := none, debug_utils_messenger := debug_utils_messenger,
        trace := t1 ++ [Call.journal Level.error VK_TAG "\x7b\x7d" [error_string res]] }
    else
      let inst := drv.createInstance.2
      let dbg : VkDebugUtilsMessengerEXT × Trace :=
        if validation_layers_enabled b then
          let s := Debugging.setup drv inst debug_utils_messenger
          if !s.1.1 then
            (s.1.2, s.2 ++ [Call.journal Level.warning VK_TAG "Failed to setup debug messager!" []])
          else (s.1.2, s.2)
        else (debug_utils_messenger, [])
      let t2 := t1 ++ dbg.2 ++ [Call.vkEnumerateInstanceExtensionProperties]
      if drv.extensionCountResult ≠ VK_SUCCESS then
        { result := none, debug_utils_messenger := dbg.1,
          trace := t2 ++ [Call.journal Level.error VK_TAG "\x7b\x7d" [error_string drv.extensionCountResult]] }
      else
        let t3 := t2 ++ [Call.vkEnumerateInstanceExtensionProperties]
        if drv.extensionDataResult ≠ VK_SUCCESS then
          { result := none, debug_utils_messenger := dbg.1,
            trace := t3 ++ [Call.journal Level.error VK_TAG "\x7b\x7d" [error_string drv.extensionDataResult]] }
        else
          { result := some inst, debug_utils_messenger := dbg.1,
            trace := t3 ++ log_extensions drv.extensions }

/-- The function `destroy_instance` (main.cpp 281-287). -/
def destroy_instance (b : Build) (drv : Driver) (inst : VkInstance)
    (debug_utils_messenger : VkDebugUtilsMessengerEXT) : Trace :=
  (if validation_layers_enabled b then Debugging.cleanup drv inst debug_utils_messenger else [])
    ++ [Call.vkDestroyInstance inst]

/-- The function `enumerate_physical_devices` (main.cpp 289-305). -/
def enumerate_physical_devices (drv : Driver) (inst : VkInstance) : List VkPhysicalDevice × Trace :=
  if drv.deviceCountResult ≠ VK_SUCCESS then
    ([], [Call.vkEnumeratePhysicalDevices inst,
          Call.journal Level.error VK_TAG "\x7b\x7d" [error_string drv.deviceCountResult]])
  else if drv.deviceDataResult ≠ VK_SUCCESS then
    ([], [Call.vkEnumeratePhysicalDevices inst, Call.vkEnumeratePhysicalDevices inst,
          Call.journal Level.error VK_TAG "\x7b\x7d" [error_string drv.deviceDataResult]])
  else
    (drv.physicalDevices, [Call.vkEnumeratePhysicalDevices inst, Call.vkEnumeratePhysicalDevices inst])

end Vulkan

namespace Vulkan

/-- The result of `is_device_suitable`: the value returned, the two by-reference
output parameters afterwards, and the calls. -/
structure Suitability where
  ret : Bool
  selected_graphics_queue_family_index : Nat
  selected_present_queue_family_index : Nat
  trace : Trace

/-- The state at the end of the first loop of `is_device_suitable`: `returned` holds
the index at which the loop returned `true` (`none` when the loop ran to its end). -/
structure FamilyScan where
  returned : Option Nat
  graphics_queue_family_index : Nat
  queue_present_support : List VkBool32
  trace : Trace

/-- The first loop of `is_device_suitable` (main.cpp 350-368), from family index `idx`
on, over the remaining entries of `queue_family_properties`. -/
def scan_families (drv : Driver) (physical_device : VkPhysicalDevice)
    (presentation_surface : VkSurfaceKHR) :
    List VkQueueFamilyProperties → Nat → Nat → List VkBool32 → FamilyScan
  | [], _, graphics_queue_family_index, queue_present_support =>
    { returned := none, graphics_queue_family_index := graphics_queue_family_index,
      queue_present_support := queue_present_support, trace := [] }
  | property :: rest, idx, graphics_queue_family_index, queue_present_support =>
    let queue_present_support :=
      queue_present_support.set idx (drv.surfaceSupport physical_device idx presentation_surface)
    let call := Call.vkGetPhysicalDeviceSurfaceSupportKHR physical_device idx presentation_surface
    -- Select first queue that supports graphics
    let graphics_queue_family_index :=
      if property.queueCount > 0 ∧ property.queueFlags &&& VK_QUEUE_GRAPHICS_BIT ≠ 0 then
        if graphics_queue_family_index = UINT32_MAX then idx else graphics_queue_family_index
      else graphics_queue_family_index
    -- If there is queue that supports both graphics and present - prefer it
    if queue_present_support.getD idx 0 ≠ 0 then
      { returned := some idx, graphics_queue_family_index := graphics_queue_family_index,
        queue_present_support := queue_present_support, trace := [call] }
    else
      let r := scan_families drv physical_device presentation_surface rest (idx + 1)
        graphics_queue_family_index queue_present_support
      { r with trace := call :: r.trace }

/-- The second loop of `is_device_suitable` (main.cpp 371-376), from index `i` on, over
the remaining entries of `queue_present_support`. -/
def find_present (present_queue_family_index : Nat) : List VkBool32 → Nat → Nat
  | [], _ => present_queue_family_index
  | support :: rest, i =>
    if support ≠ 0 then i else find_present present_queue_family_index rest (i + 1)

/-- The text both capability checks of `is_device_suitable` log. -/
def unsupported_parameters (props : VkPhysicalDeviceProperties) : Call :=
  Call.journal Level.error VK_TAG
    "Physical device \x7b\x7d:\x7b\x7d doesn't support required parameters!"
    [toString props.deviceID, props.deviceName]

/-- The function `is_device_suitable` (main.cpp 307-388). -/
def is_device_suitable (drv : Driver) (physical_device : VkPhysicalDevice)
    (presentation_surface : VkSurfaceKHR)
    (selected_graphics_queue_family_index selected_present_queue_family_index : Nat) :
    Suitability :=
  let device_properties := drv.properties physical_device
  let device_features := drv.features physical_device
  let t0 : Trace :=
    [Call.vkGetPhysicalDeviceProperties physical_device,
     Call.vkGetPhysicalDeviceFeatures physical_device,
     Call.vkGetPhysicalDeviceMemoryProperties physical_device]
  let major_version := VK_VERSION_MAJOR device_properties.apiVersion
  if major_version < 1 ∨ device_properties.maxImageDimension2D < 4096 then
    { ret := false,
      selected_graphics_queue_family_index := selected_graphics_queue_family_index,
      selected_present_queue_family_index := selected_present_queue_family_index,
      trace := t0 ++ [unsupported_parameters device_properties] }
  else if device_properties.deviceType ≠ VK_PHYSICAL_DEVICE_TYPE_DISCRETE_GPU
      ∨ device_features.geometryShader = 0 then
    { ret := false,
      selected_graphics_queue_family_index := selected_graphics_queue_family_index,
      selected_present_queue_family_index := selected_present_queue_family_index,
      trace := t0 ++ [unsupported_parameters device_properties] }
  else
    let queue_families_count := (drv.queueFamilies physical_device).length
    let t1 := t0 ++ [Call.vkGetPhysicalDeviceQueueFamilyProperties physical_device]
    if queue_families_count = 0 then
      { ret := false,
        selected_graphics_queue_family_index := selected_graphics_queue_family_index,
        selected_present_queue_family_index := selected_present_queue_family_index,
        trace := t1 ++ [Call.journal Level.error VK_TAG
          "Physical device \x7b\x7d:\x7b\x7d doesn't have any queue families! "
          [toString device_properties.deviceID, device_properties.deviceName]] }
    else
      let queue_present_support : List VkBool32 := List.replicate queue_families_count 0
      let queue_family_properties := drv.queueFamilies physical_device
      let t2 := t1 ++ [Call.vkGetPhysicalDeviceQueueFamilyProperties physical_device]
      let scan := scan_families drv physical_device presentation_surface queue_family_properties 0
        UINT32_MAX queue_present_support
      match scan.returned with
      | some idx =>
        { ret := true,
          selected_graphics_queue_family_index := idx,
          selected_present_queue_family_index := idx,
          trace := t2 ++ scan.trace }
      | none =>
        -- We don't have queue that supports both graphics and present so we have to use
        -- separate queues
        let graphics_queue_family_index := scan.graphics_queue_family_index
        let present_queue_family_index := find_present UINT32_MAX scan.queue_present_support 0
        if graphics_queue_family_index = UINT32_MAX ∨ present_queue_family_index = UINT32_MAX then
          { ret := false,
            selected_graphics_queue_family_index := selected_graphics_queue_family_index,
            selected_present_queue_family_index := selected_present_queue_family_index,
            trace := t2 ++ scan.trace ++ [Call.journal Level.error VK_TAG
              "Could not find queue families with required properties on physical device \x7b\x7d:\x7b\x7d! "
              [toString device_properties.deviceID, device_properties.deviceName]] }
        else
          { ret := true,
            selected_graphics_queue_family_index := graphics_queue_family_index,
            selected_present_queue_family_index := present_queue_family_index,
            trace := t2 ++ scan.trace }

/-- The state at the end of the loop of `pick_physical_device`. -/
structure DeviceScan where
  selected_device_index : Nat
  selected_graphics_queue_family_index : Nat
  selected_present_queue_family_index : Nat
  trace : Trace

/-- The loop of `pick_physical_device` (main.cpp 397-404) over the remaining devices. -/
def scan_devices (drv : Driver) (presentation_surface : VkSurfaceKHR) :
    List VkPhysicalDevice → Nat → Nat → Nat → DeviceScan
  | [], selected_device_index, g, p =>
    { selected_device_index := selected_device_index,
      selected_graphics_queue_family_index := g,
      selected_present_queue_family_index := p, trace := [] }
  | device :: rest, selected_device_index, g, p =>
    let s := is_device_suitable drv device presentation_surface g p
    if s.ret then
      { selected_device_index := selected_device_index,
        selected_graphics_queue_family_index := s.selected_graphics_queue_family_index,
        selected_present_queue_family_index := s.selected_present_queue_family_index,
        trace := s.trace }
    else
      let r := scan_devices drv presentation_surface rest (selected_device_index + 1)
        s.selected_graphics_queue_family_index s.selected_present_queue_family_index
      { r with trace := s.trace ++ r.trace }

/-- The result of `pick_physical_device`: the optional it returns, the two
by-reference output parameters afterwards, and the calls. -/
structure PickResult where
  result : Option VkPhysicalDevice
  selected_graphics_queue_family_index : Nat
  selected_present_queue_family_index : Nat
  trace : Trace

/-- The function `pick_physical_device` (main.cpp 390-414). -/
def pick_physical_device (drv : Driver) (inst : VkInstance) (presentation_surface : VkSurfaceKHR)
    (selected_graphics_queue_family_index selected_present_queue_family_index : Nat) :
    PickResult :=
  let e := enumerate_physical_devices drv inst
  let physical_devices := e.1
  if physical_devices.isEmpty then
    { result := none,
      selected_graphics_queue_family_index := selected_graphics_queue_family_index,
      selected_present_queue_family_index := selected_present_queue_family_index,
      trace := e.2 }
  else
    let r := scan_devices drv presentation_surface physical_devices 0
      selected_graphics_queue_family_index selected_present_queue_family_index
    if r.selected_device_index ≥ physical_devices.length then
      { result := none,
        selected_graphics_queue_family_index := r.selected_graphics_queue_family_index,
        selected_present_queue_family_index := r.selected_present_queue_family_index,
        trace := e.2 ++ r.trace ++ [Call.journal Level.error VK_TAG "Invalid device index" []] }
    else
      { result := physical_devices.get? r.selected_device_index,
        selected_graphics_queue_family_index := r.selected_graphics_queue_family_index,
        selected_present_queue_family_index := r.selected_present_queue_family_index,
        trace := e.2 ++ r.trace }

/-- The array `queue_priorities` of `create_logical_device`: the one priority `1.0f`. -/
def queue_priorities : List ℚ := [1]

/-- The vector `queue_create_infos` built by `create_logical_device` (main.cpp 418-439). -/
def queue_create_infos (selected_graphics_queue_family_index selected_present_queue_family_index : Nat) :
    List VkDeviceQueueCreateInfo :=
  let infos0 : List VkDeviceQueueCreateInfo :=
    if selected_graphics_queue_family_index ≠ UINT32_MAX then
      [{ queueFamilyIndex := selected_graphics_queue_family_index,
         queueCount := queue_priorities.length, pQueuePriorities := queue_priorities }]
    else []
  if selected_graphics_queue_family_index ≠ selected_present_queue_family_index then
    infos0 ++ [{ queueFamilyIndex := selected_present_queue_family_index,
                 queueCount := queue_priorities.length, pQueuePriorities := queue_priorities }]
  else infos0

/-- The function `create_logical_device` (main.cpp 416-457). -/
def create_logical_device (drv : Driver) (physical_device : VkPhysicalDevice)
    (selected_graphics_queue_family_index selected_present_queue_family_index : Nat) :
    Option VkDevice × Trace :=
  let infos := queue_create_infos selected_graphics_queue_family_index
    selected_present_queue_family_index
  let extensions : List String := [VK_KHR_SWAPCHAIN_EXTENSION_NAME]
  let device_create_info : VkDeviceCreateInfo :=
    { pQueueCreateInfos := infos, queueCreateInfoCount := infos.length,
      ppEnabledExtensionNames := extensions, enabledExtensionCount := extensions.length }
  if drv.createDevice.1 ≠ VK_SUCCESS then
    (none, [Call.vkCreateDevice physical_device device_create_info,
            Call.journal Level.error VK_TAG "Could not create vulkan device!" []])
  else
    (some drv.createDevice.2, [Call.vkCreateDevice physical_device device_create_info])

/-- The function `destroy_logical_device` (main.cpp 459-465). -/
def destroy_logical_device (drv : Driver) (device : VkDevice) : Trace :=
  let res := drv.deviceWaitIdle
  if res ≠ VK_SUCCESS then
    [Call.vkDeviceWaitIdle device,
     Call.journal Level.error VK_TAG "Couldn't wait device %1" [error_string res],
     Call.vkDestroyDevice device]
  else
    [Call.vkDeviceWaitIdle device, Call.vkDestroyDevice device]

end Vulkan

namespace Vulkan

/-- The structure `QueueParameters` (main.cpp 174-177). -/
structure QueueParameters where
  handle : VkQueue := VK_NULL_HANDLE
  family_index : Nat := 0
deriving DecidableEq, Repr

end Vulkan

namespace Application

def WINDOW_WIDTH : Nat := 1920
def WINDOW_HEIGHT : Nat := 1080
def WINDOW_TITLE : String := "Learn Vulkan Window"
def APP_TAG : String := "App"

/-- The structure `ApplicationContext` (main.cpp 477-485); the null window pointer
is 0. -/
structure ApplicationContext where
  window : GLFWwindow := 0
  inst : VkInstance := 0
  physical_device : VkPhysicalDevice := VK_NULL_HANDLE
  logical_device : VkDevice := VK_NULL_HANDLE
  presentation_surface : VkSurfaceKHR := VK_NULL_HANDLE
  graphics_queue : Vulkan.QueueParameters := { }
  present_queue : Vulkan.QueueParameters := { }
deriving DecidableEq, Repr

/-- The function `center_window` (main.cpp 489-504); C integer division truncates. -/
def center_window (drv : Driver) (window : GLFWwindow) (monitor : Option GLFWmonitor) : Trace :=
  match monitor with
  | none => []
  | some monitor =>
    match drv.videoMode with
    | none => [Call.glfwGetVideoMode monitor]
    | some mode =>
      let monitor_x := drv.monitorPos.1
      let monitor_y := drv.monitorPos.2
      let width := drv.windowSize.1
      let height := drv.windowSize.2
      [Call.glfwGetVideoMode monitor, Call.glfwGetMonitorPos monitor, Call.glfwGetWindowSize window,
       Call.glfwSetWindowPos window (monitor_x + Int.tdiv (mode.1 - width) 2)
         (monitor_y + Int.tdiv (mode.2 - height) 2)]

/-- The function `create_window` (main.cpp 506-526). -/
def create_window (drv : Driver) : Option GLFWwindow × Trace :=
  let t0 : Trace :=
    [Call.glfwWindowHint GLFW_CLIENT_API GLFW_NO_API,
     Call.glfwWindowHint GLFW_RESIZABLE GLFW_FALSE,
     Call.glfwWindowHint GLFW_VISIBLE GLFW_FALSE,
     Call.glfwCreateWindow WINDOW_WIDTH WINDOW_HEIGHT WINDOW_TITLE]
  match drv.createWindow with
  | none =>
    (none, t0 ++ [Call.glfwGetError, Call.journal Level.error APP_TAG "\x7b\x7d" [drv.errorDescription]])
  | some window =>
    (some window,
     t0 ++ [Call.glfwGetPrimaryMonitor] ++ center_window drv window drv.primaryMonitor
       ++ [Call.glfwSetCursorPos window ((WINDOW_WIDTH : ℚ) / 2) ((WINDOW_HEIGHT : ℚ) / 2),
           Call.glfwShowWindow window])

/-- The function `destroy_window` (main.cpp 528-530). -/
def destroy_window (window : GLFWwindow) : Trace :=
  [Call.glfwDestroyWindow window]

/-- The result of `startup`: `Except.error code` when the process was ended by
`exit(code)`, otherwise the static `app_context` at the end; the static
`debug_utils_messenger` afterwards; and the calls. -/
structure StartupResult where
  outcome : Except Nat ApplicationContext
  debug_utils_messenger : VkDebugUtilsMessengerEXT
  trace : Trace

/-- The function `startup` (main.cpp 532-580), on the statics `app_context` and
`debug_utils_messenger`. -/
def startup (b : Build) (drv : Driver) (app_context : ApplicationContext)
    (debug_utils_messenger : VkDebugUtilsMessengerEXT) : StartupResult :=
  let w := create_window drv
  let t0 := [Call.glfwInit] ++ w.2
  match w.1 with
  | none =>
    { outcome := Except.error EXIT_FAILURE, debug_utils_messenger := debug_utils_messenger,
      trace := t0 ++ [Call.journal Level.critical APP_TAG "Failed to create Window" []] }
  | some window =>
    let app_context := { app_context with window := window }
    let i := Vulkan.create_instance b drv debug_utils_messenger
    let t1 := t0 ++ i.trace
    match i.result with
    | none =>
      { outcome := Except.error EXIT_FAILURE, debug_utils_messenger := i.debug_utils_messenger,
        trace := t1 ++ [Call.journal Level.critical APP_TAG "Failed to create Vulkan instance" []] }
    | some inst =>
      let app_context := { app_context with inst := inst }
      let t2 := t1 ++ [Call.glfwCreateWindowSurface app_context.inst app_context.window]
      if drv.createWindowSurface.1 ≠ VK_SUCCESS then
        { outcome := Except.error EXIT_FAILURE, debug_utils_messenger := i.debug_utils_messenger,
          trace := t2 ++ [Call.journal Level.critical APP_TAG
            "Could not create presentation surface!" []] }
      else
        let app_context := { app_context with presentation_surface := drv.createWindowSurface.2 }
        let p := Vulkan.pick_physical_device drv app_context.inst app_context.presentation_surface
          UINT32_MAX UINT32_MAX
        let t3 := t2 ++ p.trace
        match p.result with
        | none =>
          { outcome := Except.error EXIT_FAILURE, debug_utils_messenger := i.debug_utils_messenger,
            trace := t3 ++ [Call.journal Level.critical APP_TAG
              "Could not select physical device based on the chosen properties!" []] }
        | some selected_physical_device =>
          let app_context := { app_context with physical_device := selected_physical_device }
          let d := Vulkan.create_logical_device drv selected_physical_device
            p.selected_graphics_queue_family_index p.selected_present_queue_family_index
          let t4 := t3 ++ d.2
          match d.1 with
          | none =>
            { outcome := Except.error EXIT_FAILURE, debug_utils_messenger := i.debug_utils_messenger,
              trace := t4 ++ [Call.journal Level.critical APP_TAG "Couldn't create logical device!" []] }
          | some logical_device =>
            let gi := p.selected_graphics_queue_family_index
            let pi := p.selected_present_queue_family_index
            { outcome := Except.ok
                { app_context with
                  logical_device := logical_device,
                  graphics_queue := { handle := drv.deviceQueue logical_device gi 0, family_index := gi },
                  present_queue := { handle := drv.deviceQueue logical_device pi 0, family_index := pi } },
              debug_utils_messenger := i.debug_utils_messenger,
              trace := t4 ++ [Call.vkGetDeviceQueue logical_device gi 0,
                              Call.vkGetDeviceQueue logical_device pi 0] }

/-- The function `shutdown` (main.cpp 582-588), on the statics `app_context` and
`debug_utils_messenger`. -/
def shutdown (b : Build) (drv : Driver) (app_context : ApplicationContext)
    (debug_utils_messenger : VkDebugUtilsMessengerEXT) : Trace :=
  [Call.vkDestroySurfaceKHR app_context.inst app_context.presentation_surface]
    ++ Vulkan.destroy_logical_device drv app_context.logical_device
    ++ Vulkan.destroy_instance b drv app_context.inst debug_utils_messenger
    ++ destroy_window app_context.window
    ++ [Call.glfwTerminate]

end Application

/-! ## Observations on traces -/

/-- The call is a queue-family or presentation-support query. -/
def Call.isQueueQuery : Call → Bool
  | Call.vkGetPhysicalDeviceQueueFamilyProperties _ => true
  | Call.vkGetPhysicalDeviceSurfaceSupportKHR _ _ _ => true
  | _ => false

/-- The call is the driver's instance-creation call. -/
def Call.isInstanceCreation : Call → Bool
  | Call.vkCreateInstance _ => true
  | _ => false

/-- The call looks up or invokes the debug-messenger registration entry point. -/
def Call.isMessengerRegistration : Call → Bool
  | Call.vkCreateDebugUtilsMessengerEXT _ _ => true
  | Call.vkGetInstanceProcAddr _ name => name = "vkCreateDebugUtilsMessengerEXT"
  | _ => false

/-- The call is the driver's logical-device creation call, which
`create_logical_device` issues on every path. -/
def Call.isDeviceCreation : Call → Bool
  | Call.vkCreateDevice _ _ => true
  | _ => false

/-- The call is one of the teardown steps: idle-wait, device destroy, messenger
uninstall, surface destroy, instance destroy, window release. -/
def Call.isTeardown : Call → Bool
  | Call.vkDeviceWaitIdle _ => true
  | Call.vkDestroyDevice _ => true
  | Call.vkDestroyDebugUtilsMessengerEXT _ _ => true
  | Call.vkDestroySurfaceKHR _ _ => true
  | Call.vkDestroyInstance _ => true
  | Call.glfwDestroyWindow _ => true
  | _ => false

/-- The teardown steps of a trace, in the order they were issued. -/
def teardown_calls (t : Trace) : Trace := t.filter Call.isTeardown

/-- The teardown order as the specification words it: idle-wait, device destroy,
instrumentation uninstall, surface destroy, instance destroy, window release. -/
def specified_teardown (app_context : Application.ApplicationContext)
    (debug_utils_messenger : VkDebugUtilsMessengerEXT) : Trace :=
  [Call.vkDeviceWaitIdle app_context.logical_device,
   Call.vkDestroyDevice app_context.logical_device,
   Call.vkDestroyDebugUtilsMessengerEXT app_context.inst debug_utils_messenger,
   Call.vkDestroySurfaceKHR app_context.inst app_context.presentation_surface,
   Call.vkDestroyInstance app_context.inst,
   Call.glfwDestroyWindow app_context.window]

/-! ## Observations on queue families -/

/-- A family supports graphics, as `is_device_suitable` tests it (main.cpp 355): it has
a queue and the graphics bit. -/
def family_supports_graphics (property : VkQueueFamilyProperties) : Bool :=
  decide (property.queueCount > 0 ∧ property.queueFlags &&& VK_QUEUE_GRAPHICS_BIT ≠ 0)

/-- Family `idx` of the device can present to the surface, as the driver answers
`vkGetPhysicalDeviceSurfaceSupportKHR`. -/
def family_supports_present (drv : Driver) (physical_device : VkPhysicalDevice)
    (presentation_surface : VkSurfaceKHR) (idx : Nat) : Bool :=
  decide (drv.surfaceSupport physical_device idx presentation_surface ≠ 0)

/-- The device passes the four capability checks of `is_device_suitable`
(main.cpp 320 and 326). -/
def passes_capability_checks (drv : Driver) (physical_device : VkPhysicalDevice) : Prop :=
  VK_VERSION_MAJOR (drv.properties physical_device).apiVersion ≥ 1
    ∧ (drv.properties physical_device).maxImageDimension2D ≥ 4096
    ∧ (drv.properties physical_device).deviceType = VK_PHYSICAL_DEVICE_TYPE_DISCRETE_GPU
    ∧ (drv.features physical_device).geometryShader ≠ 0

instance (drv : Driver) (physical_device : VkPhysicalDevice) :
    Decidable (passes_capability_checks drv physical_device) := by
  unfold passes_capability_checks; infer_instance

/-- The indices of the families of the device that support graphics, in index order. -/
def graphics_families (drv : Driver) (physical_device : VkPhysicalDevice) : List Nat :=
  (List.range (drv.queueFamilies physical_device).length).filter fun idx =>
    match (drv.queueFamilies physical_device).get? idx with
    | some property => family_supports_graphics property
    | none => false

/-- The indices of the families of the device that can present to the surface, in
index order. -/
def present_families (drv : Driver) (physical_device : VkPhysicalDevice)
    (presentation_surface : VkSurfaceKHR) : List Nat :=
  (List.range (drv.queueFamilies physical_device).length).filter fun idx =>
    family_supports_present drv physical_device presentation_surface idx


/-! ## Test doubles -/

namespace Fixture

/-- A debug build with the Khronos validation layer. -/
def build : Build := { NDEBUG := false, LUNAR_VALIDATION := false, APP_NAME := "learnvulkan" }

/-- A discrete GPU of API version 1.2.0 with 16384 pixel images. -/
def discrete : VkPhysicalDeviceProperties :=
  { apiVersion := 4202496, deviceID := 7, deviceType := VK_PHYSICAL_DEVICE_TYPE_DISCRETE_GPU,
    deviceName := "discrete", maxImageDimension2D := 16384 }

/-- An integrated GPU (device class 1), otherwise like `discrete`. -/
def integrated : VkPhysicalDeviceProperties :=
  { discrete with deviceID := 8, deviceType := 1, deviceName := "integrated" }

/-- Three devices 21, 22, 23: 21 is integrated; 22 has a graphics-only family 0 and a
graphics-and-presentation family 1; 23 has one family doing both.  Every call
succeeds. -/
def driver : Driver :=
  { layers := [{ layerName := "VK_LAYER_KHRONOS_validation" }],
    glfwExtensions := ["VK_KHR_surface", "VK_KHR_xcb_surface"],
    createInstance := (VK_SUCCESS, 11),
    procAddr := fun _ _ => true,
    createMessenger := (VK_SUCCESS, some 12),
    extensionCountResult := VK_SUCCESS,
    extensionDataResult := VK_SUCCESS,
    extensions := [{ extensionName := "VK_KHR_surface", specVersion := 25 }],
    deviceCountResult := VK_SUCCESS,
    deviceDataResult := VK_SUCCESS,
    physicalDevices := [21, 22, 23],
    properties := fun d => if d = 21 then integrated else discrete,
    features := fun _ => { geometryShader := 1 },
    queueFamilies := fun d =>
      if d = 22 then [{ queueFlags := 1, queueCount := 1 }, { queueFlags := 3, queueCount := 2 }]
      else [{ queueFlags := 7, queueCount := 4 }],
    surfaceSupport := fun d idx _ => if d = 22 ∧ idx = 0 then 0 else 1,
    createDevice := (VK_SUCCESS, 31),
    deviceWaitIdle := VK_SUCCESS,
    deviceQueue := fun _ family_index _ => 40 + family_index,
    createWindow := some 1,
    errorDescription := "",
    primaryMonitor := some 2,
    videoMode := some (2560, 1440),
    monitorPos := (0, 0),
    windowSize := (1920, 1080),
    createWindowSurface := (VK_SUCCESS, 13) }

/-- One discrete device 21 with three families: 0 graphics only, 1 compute only (neither
graphics nor presentation), 2 transfer only with presentation support. -/
def splitDriver : Driver :=
  { driver with
    physicalDevices := [21],
    properties := fun _ => discrete,
    queueFamilies := fun _ =>
      [{ queueFlags := 1, queueCount := 1 }, { queueFlags := 2, queueCount := 1 },
       { queueFlags := 4, queueCount := 1 }],
    surfaceSupport := fun _ idx _ => if idx = 2 then 1 else 0 }

/-- One discrete device 21 with two families: 0 transfer only with presentation support,
1 graphics with presentation support. -/
def presentFirstDriver : Driver :=
  { driver with
    physicalDevices := [21],
    properties := fun _ => discrete,
    queueFamilies := fun _ =>
      [{ queueFlags := 4, queueCount := 1 }, { queueFlags := 1, queueCount := 1 }],
    surfaceSupport := fun _ _ _ => 1 }

/-- The devices of `driver`, all of them integrated. -/
def integratedDriver : Driver :=
  { driver with properties := fun _ => integrated }

/-- The driver of `driver` without the Khronos validation layer. -/
def noLayerDriver : Driver :=
  { driver with layers := [{ layerName := "VK_LAYER_LUNARG_api_dump" }] }

/-- The context `startup` leaves when run on `driver`. -/
def ready : Application.ApplicationContext :=
  { window := 1, inst := 11, physical_device := 22, logical_device := 31,
    presentation_surface := 13,
    graphics_queue := { handle := 41, family_index := 1 },
    present_queue := { handle := 41, family_index := 1 } }

end Fixture

/-! ## Observed state of the debug instrumentation -/

/-- What a recording test double observes of the debug instrumentation: the calls
recorded so far and the static `debug_utils_messenger`. -/
structure Observed where
  calls : Trace
  debug_utils_messenger : VkDebugUtilsMessengerEXT
deriving DecidableEq

/-- One call of `Debugging::setup` on an observed state: its calls are appended and the
static holds what `CreateDebugUtilsMessengerEXT` left in it. -/
def Vulkan.Debugging.setup_on (drv : Driver) (inst : VkInstance) (s : Observed) : Observed :=
  { calls := s.calls ++ (Vulkan.Debugging.setup drv inst s.debug_utils_messenger).2,
    debug_utils_messenger := (Vulkan.Debugging.setup drv inst s.debug_utils_messenger).1.2 }

/-- One call of `Debugging::cleanup` (main.cpp 162-164) on an observed state: its calls
are appended; `cleanup` passes the static by value and never assigns it. -/
def Vulkan.Debugging.cleanup_on (drv : Driver) (inst : VkInstance) (s : Observed) : Observed :=
  { calls := s.calls ++ Vulkan.Debugging.cleanup drv inst s.debug_utils_messenger,
    debug_utils_messenger := s.debug_utils_messenger }

/-- The state before anything was installed: no calls, the static zero-initialised. -/
def Observed.initial : Observed := { calls := [], debug_utils_messenger := VK_NULL_HANDLE }

/-- The family at index `idx` of the device exists and supports graphics. -/
def family_at_supports_graphics (drv : Driver) (physical_device : VkPhysicalDevice)
    (idx : Nat) : Bool :=
  match (drv.queueFamilies physical_device).get? idx with
  | some property => family_supports_graphics property
  | none => false

namespace Fixture

/-- The driver of `driver` whose count query of the supported extensions reports an
error. -/
def extensionCountErrorDriver : Driver :=
  { driver with extensionCountResult := VK_ERROR_OUT_OF_HOST_MEMORY }

/-- The driver of `driver` whose data query of the supported extensions reports
`VK_INCOMPLETE`. -/
def extensionDataIncompleteDriver : Driver :=
  { driver with extensionDataResult := VK_INCOMPLETE }

/-- One discrete device 21 whose only family is compute only (no graphics bit) and has
presentation support. -/
def computeOnlyDriver : Driver :=
  { driver with
    physicalDevices := [21],
    properties := fun _ => discrete,
    queueFamilies := fun _ => [{ queueFlags := 2, queueCount := 1 }],
    surfaceSupport := fun _ _ _ => 1 }

end Fixture

/-! ## Queue-family selection (C1, C2) -/

/-- C1, evaluated on the claim's own witness.  The device of `Fixture.splitDriver`
passes the capability checks; its family 0 alone supports graphics, its family 2 alone
supports presentation, so no family supports both, the first graphics family is 0 and
the first presentation family is 2.  The claim requires the selection
`{graphics: 0, present: 2}`; `is_device_suitable` returns true with family 2 in both
roles, a family that does not support graphics. -/
theorem split_family_device_gets_present_family_for_graphics :
    passes_capability_checks Fixture.splitDriver 21
      ∧ graphics_families Fixture.splitDriver 21 = [0]
      ∧ present_families Fixture.splitDriver 21 13 = [2]
      ∧ (Vulkan.is_device_suitable Fixture.splitDriver 21 13 UINT32_MAX UINT32_MAX).ret = true
      ∧ (Vulkan.is_device_suitable Fixture.splitDriver 21 13 UINT32_MAX
          UINT32_MAX).selected_graphics_queue_family_index = 2
      ∧ (Vulkan.is_device_suitable Fixture.splitDriver 21 13 UINT32_MAX
          UINT32_MAX).selected_present_queue_family_index = 2 := by
  decide

/-- C2, evaluated on a failing input.  The device of `Fixture.presentFirstDriver`
passes the capability checks; its family 1 is the first (and only) family supporting
both graphics and presentation, family 0 supports presentation only.  The claim
requires the selection `{graphics: 1, present: 1}`; `is_device_suitable` returns true
with family 0 in both roles. -/
theorem present_only_family_wins_over_combined_family :
    passes_capability_checks Fixture.presentFirstDriver 21
      ∧ graphics_families Fixture.presentFirstDriver 21 = [1]
      ∧ present_families Fixture.presentFirstDriver 21 13 = [0, 1]
      ∧ (Vulkan.is_device_suitable Fixture.presentFirstDriver 21 13 UINT32_MAX UINT32_MAX).ret = true
      ∧ (Vulkan.is_device_suitable Fixture.presentFirstDriver 21 13 UINT32_MAX
          UINT32_MAX).selected_graphics_queue_family_index = 0
      ∧ (Vulkan.is_device_suitable Fixture.presentFirstDriver 21 13 UINT32_MAX
          UINT32_MAX).selected_present_queue_family_index = 0 := by
  decide

/-! ## What the family scan does -/

/-- Reading back the slot just written. -/
theorem getD_set_self (l : List VkBool32) (i : Nat) (v : VkBool32) (h : i < l.length) :
    (l.set i v).getD i 0 = v := by
  induction l generalizing i with
  | nil => simp at h
  | cons a rest ih =>
    cases i with
    | zero => rfl
    | succ i' =>
      have h' : i' < rest.length := by simpa using h
      simpa [List.set, List.getD] using ih i' h'

/-- The first loop of `is_device_suitable` returns at the first family with presentation
support, whatever that family's queue flags are. -/
theorem scan_families_returns_first_present (drv : Driver) (d : VkPhysicalDevice)
    (surface : VkSurfaceKHR) :
    ∀ (fams : List VkQueueFamilyProperties) (idx g : Nat) (sup : List VkBool32) (k : Nat),
      k < fams.length → idx + fams.length ≤ sup.length →
      drv.surfaceSupport d (idx + k) surface ≠ 0 →
      (∀ j < k, drv.surfaceSupport d (idx + j) surface = 0) →
      (Vulkan.scan_families drv d surface fams idx g sup).returned = some (idx + k) := by
  intro fams
  induction fams with
  | nil => intro idx g sup k hk; simp at hk
  | cons f rest ih =>
    intro idx g sup k hk hlen hsup hmin
    have hidx : idx < sup.length := by simp at hlen; omega
    have hread := getD_set_self sup idx (drv.surfaceSupport d idx surface) hidx
    unfold Vulkan.scan_families
    dsimp only
    rw [hread]
    cases k with
    | zero =>
      have h0 : drv.surfaceSupport d idx surface ≠ 0 := by simpa using hsup
      rw [if_pos h0]; rfl
    | succ k' =>
      have h0 : ¬ drv.surfaceSupport d idx surface ≠ 0 := by
        have := hmin 0 (by omega)
        simpa using this
      rw [if_neg h0]
      have hrec := ih (idx + 1)
        (if f.queueCount > 0 ∧ f.queueFlags &&& VK_QUEUE_GRAPHICS_BIT ≠ 0 then
          if g = UINT32_MAX then idx else g else g)
        (sup.set idx (drv.surfaceSupport d idx surface)) k'
        (by simpa using hk)
        (by simp at hlen ⊢; omega)
        (by have : idx + 1 + k' = idx + (k' + 1) := by omega
            rw [this]; exact hsup)
        (fun j hj => by
          have := hmin (j + 1) (by omega)
          have he : idx + 1 + j = idx + (j + 1) := by omega
          rw [he]; exact this)
      have he : idx + 1 + k' = idx + (k' + 1) := by omega
      rw [he] at hrec
      exact hrec

/-- A device that passes the capability checks and has a family with presentation
support is accepted with the first such family in both roles. -/
theorem is_device_suitable_selects_first_present_family (drv : Driver) (d : VkPhysicalDevice)
    (surface : VkSurfaceKHR) (g p k : Nat)
    (hcap : passes_capability_checks drv d)
    (hk : k < (drv.queueFamilies d).length)
    (hsup : drv.surfaceSupport d k surface ≠ 0)
    (hmin : ∀ j < k, drv.surfaceSupport d j surface = 0) :
    (Vulkan.is_device_suitable drv d surface g p).ret = true
      ∧ (Vulkan.is_device_suitable drv d surface g p).selected_graphics_queue_family_index = k
      ∧ (Vulkan.is_device_suitable drv d surface g p).selected_present_queue_family_index = k := by
  obtain ⟨c1, c2, c3, c4⟩ := hcap
  have h1 : ¬ (VK_VERSION_MAJOR (drv.properties d).apiVersion < 1
      ∨ (drv.properties d).maxImageDimension2D < 4096) := by omega
  have h2 : ¬ ((drv.properties d).deviceType ≠ VK_PHYSICAL_DEVICE_TYPE_DISCRETE_GPU
      ∨ (drv.features d).geometryShader = 0) := by
    push_neg; exact ⟨c3, c4⟩
  have h3 : ¬ (drv.queueFamilies d).length = 0 := by omega
  have hscan := scan_families_returns_first_present drv d surface (drv.queueFamilies d) 0
    UINT32_MAX (List.replicate (drv.queueFamilies d).length 0) k hk (by simp)
    (by simpa using hsup) (fun j hj => by simpa using hmin j hj)
  rw [Nat.zero_add] at hscan
  unfold Vulkan.is_device_suitable
  dsimp only
  rw [if_neg h1, if_neg h2, if_neg h3, hscan]
  exact ⟨rfl, rfl, rfl⟩

/-- Without presentation support in any remaining family the first loop runs to its end
and leaves only zeros in `queue_present_support`. -/
theorem scan_families_without_present (drv : Driver) (d : VkPhysicalDevice)
    (surface : VkSurfaceKHR) :
    ∀ (fams : List VkQueueFamilyProperties) (idx g : Nat) (sup : List VkBool32),
      idx + fams.length ≤ sup.length → (∀ x ∈ sup, x = 0) →
      (∀ j < fams.length, drv.surfaceSupport d (idx + j) surface = 0) →
      (Vulkan.scan_families drv d surface fams idx g sup).returned = none
        ∧ ∀ x ∈ (Vulkan.scan_families drv d surface fams idx g sup).queue_present_support,
            x = 0 := by
  intro fams
  induction fams with
  | nil => intro idx g sup _ hz _; exact ⟨rfl, hz⟩
  | cons f rest ih =>
    intro idx g sup hlen hz hno
    have hidx : idx < sup.length := by simp at hlen; omega
    have h0 : drv.surfaceSupport d idx surface = 0 := by simpa using hno 0 (by simp)
    have hread := getD_set_self sup idx (drv.surfaceSupport d idx surface) hidx
    have hz' : ∀ x ∈ sup.set idx (drv.surfaceSupport d idx surface), x = 0 := by
      intro x hx
      rcases List.mem_or_eq_of_mem_set hx with hx | hx
      · exact hz x hx
      · rw [hx, h0]
    unfold Vulkan.scan_families
    dsimp only
    rw [hread, if_neg (by simp [h0])]
    exact ih (idx + 1) _ (sup.set idx (drv.surfaceSupport d idx surface))
      (by simp at hlen ⊢; omega) hz'
      (fun j hj => by
        have := hno (j + 1) (by simpa using hj)
        have he : idx + 1 + j = idx + (j + 1) := by omega
        rw [he]; exact this)

/-- The second loop of `is_device_suitable` finds nothing in a vector of zeros. -/
theorem find_present_of_zeros (dflt : Nat) :
    ∀ (sup : List VkBool32) (i : Nat), (∀ x ∈ sup, x = 0) →
      Vulkan.find_present dflt sup i = dflt := by
  intro sup
  induction sup with
  | nil => intro i _; rfl
  | cons a rest ih =>
    intro i hz
    have ha : a = 0 := hz a (by simp)
    unfold Vulkan.find_present
    rw [if_neg (by simp [ha])]
    exact ih (i + 1) (fun x hx => hz x (by simp [hx]))

/-- A device none of whose families has presentation support is rejected. -/
theorem is_device_suitable_rejects_without_present (drv : Driver) (d : VkPhysicalDevice)
    (surface : VkSurfaceKHR) (g p : Nat)
    (hno : ∀ j < (drv.queueFamilies d).length, drv.surfaceSupport d j surface = 0) :
    (Vulkan.is_device_suitable drv d surface g p).ret = false := by
  have hscan := scan_families_without_present drv d surface (drv.queueFamilies d) 0
    UINT32_MAX (List.replicate (drv.queueFamilies d).length 0) (by simp)
    (fun x hx => (List.mem_replicate.mp hx).2)
    (fun j hj => by simpa using hno j hj)
  have hfind := find_present_of_zeros UINT32_MAX _ 0 hscan.2
  unfold Vulkan.is_device_suitable
  dsimp only
  rw [hscan.1]
  dsimp only
  rw [hfind]
  split_ifs <;> simp_all

/-! ## Device selection (C3, C4) -/

/-- A rejected device leaves both output parameters as they were. -/
theorem is_device_suitable_rejected_keeps_outputs (drv : Driver) (d : VkPhysicalDevice)
    (surface : VkSurfaceKHR) (g p : Nat)
    (h : (Vulkan.is_device_suitable drv d surface g p).ret = false) :
    (Vulkan.is_device_suitable drv d surface g p).selected_graphics_queue_family_index = g
      ∧ (Vulkan.is_device_suitable drv d surface g p).selected_present_queue_family_index = p := by
  revert h
  unfold Vulkan.is_device_suitable
  dsimp only
  split_ifs <;> first
    | exact fun _ => ⟨rfl, rfl⟩
    | (split <;> simp)

/-- The loop of `pick_physical_device` stops at the first suitable device. -/
theorem scan_devices_first_fit (drv : Driver) (surface : VkSurfaceKHR) :
    ∀ (devs : List VkPhysicalDevice) (k g p i : Nat) (hi : i < devs.length),
      (Vulkan.is_device_suitable drv (devs.get ⟨i, hi⟩) surface g p).ret = true →
      (∀ j (hj : j < devs.length), j < i →
        (Vulkan.is_device_suitable drv (devs.get ⟨j, hj⟩) surface g p).ret = false) →
      (Vulkan.scan_devices drv surface devs k g p).selected_device_index = k + i
        ∧ (Vulkan.scan_devices drv surface devs k g p).selected_graphics_queue_family_index
            = (Vulkan.is_device_suitable drv (devs.get ⟨i, hi⟩) surface g
                p).selected_graphics_queue_family_index
        ∧ (Vulkan.scan_devices drv surface devs k g p).selected_present_queue_family_index
            = (Vulkan.is_device_suitable drv (devs.get ⟨i, hi⟩) surface g
                p).selected_present_queue_family_index := by
  intro devs
  induction devs with
  | nil => intro k g p i hi; simp at hi
  | cons d rest ih =>
    intro k g p i hi hsuit hmin
    cases i with
    | zero =>
      have hsuit0 : (Vulkan.is_device_suitable drv d surface g p).ret = true := hsuit
      simp only [Vulkan.scan_devices, hsuit0, if_true, List.get_cons_zero]
      exact ⟨rfl, rfl, rfl⟩
    | succ i' =>
      have hd : (Vulkan.is_device_suitable drv d surface g p).ret = false :=
        hmin 0 (by simp) (by omega)
      obtain ⟨hg, hp⟩ := is_device_suitable_rejected_keeps_outputs drv d surface g p hd
      have hi' : i' < rest.length := by simpa using hi
      have hrec := ih (k + 1) g p i' hi' (by simpa using hsuit)
        (fun j hj hlt => by
          have := hmin (j + 1) (by simpa using hj) (by omega)
          simpa using this)
      simp only [Vulkan.scan_devices, hd, hg, hp, List.get_cons_succ]
      refine ⟨?_, hrec.2.1, hrec.2.2⟩
      simp only [Bool.false_eq_true, if_false]
      rw [hrec.1]; omega

/-- The loop of `pick_physical_device` runs past the end when no device is suitable. -/
theorem scan_devices_none_suitable (drv : Driver) (surface : VkSurfaceKHR) :
    ∀ (devs : List VkPhysicalDevice) (k g p : Nat),
      (∀ d ∈ devs, (Vulkan.is_device_suitable drv d surface g p).ret = false) →
      (Vulkan.scan_devices drv surface devs k g p).selected_device_index = k + devs.length := by
  intro devs
  induction devs with
  | nil => intro k g p _; simp [Vulkan.scan_devices]
  | cons d rest ih =>
    intro k g p h
    have hd : (Vulkan.is_device_suitable drv d surface g p).ret = false := h d (by simp)
    obtain ⟨hg, hp⟩ := is_device_suitable_rejected_keeps_outputs drv d surface g p hd
    have hrec := ih (k + 1) g p (fun d' hd' => h d' (by simp [hd']))
    simp only [Vulkan.scan_devices, hd, hg, hp, Bool.false_eq_true, if_false]
    rw [hrec]; simp; omega

/-- The calls of `Debugging::setup` contain no device creation. -/
theorem setup_trace_no_device_creation (drv : Driver) (inst : VkInstance)
    (m : VkDebugUtilsMessengerEXT) :
    ∀ c ∈ (Vulkan.Debugging.setup drv inst m).2, c.isDeviceCreation = false := by
  intro c hc
  unfold Vulkan.Debugging.setup Vulkan.Debugging.CreateDebugUtilsMessengerEXT at hc
  dsimp only at hc
  split_ifs at hc <;> simp at hc <;> aesop

/-- The calls of `create_instance` contain no device creation. -/
theorem create_instance_trace_no_device_creation (b : Build) (drv : Driver)
    (m : VkDebugUtilsMessengerEXT) :
    ∀ c ∈ (Vulkan.create_instance b drv m).trace, c.isDeviceCreation = false := by
  intro c hc
  have hs := setup_trace_no_device_creation drv drv.createInstance.2 m
  unfold Vulkan.create_instance Vulkan.check_validation_layer_support Vulkan.required_extensions
    Vulkan.log_extensions at hc
  dsimp only at hc
  split_ifs at hc <;>
    simp only [List.mem_append, List.mem_cons, List.mem_singleton, List.mem_map,
      List.not_mem_nil, or_false, false_or] at hc <;>
    aesop

/-- The calls of `create_window` contain no device creation. -/
theorem create_window_trace_no_device_creation (drv : Driver) :
    ∀ c ∈ (Application.create_window drv).2, c.isDeviceCreation = false := by
  intro c hc
  unfold Application.create_window Application.center_window at hc
  aesop

/-- The first loop of `is_device_suitable` issues no device creation. -/
theorem scan_families_trace_no_device_creation (drv : Driver) (d : VkPhysicalDevice)
    (surface : VkSurfaceKHR) :
    ∀ (fams : List VkQueueFamilyProperties) (idx g : Nat) (sup : List VkBool32),
      ∀ c ∈ (Vulkan.scan_families drv d surface fams idx g sup).trace,
        c.isDeviceCreation = false := by
  intro fams
  induction fams with
  | nil => intro idx g sup c hc; simp [Vulkan.scan_families] at hc
  | cons f rest ih =>
    intro idx g sup c hc
    unfold Vulkan.scan_families at hc
    dsimp only at hc
    split_ifs at hc <;>
      simp only [List.mem_cons, List.mem_singleton, List.not_mem_nil, or_false] at hc <;>
      first
        | (subst hc; rfl)
        | (rcases hc with hc | hc
           · subst hc; rfl
           · exact ih _ _ _ c hc)

/-- The calls of `is_device_suitable` contain no device creation. -/
theorem is_device_suitable_trace_no_device_creation (drv : Driver) (d : VkPhysicalDevice)
    (surface : VkSurfaceKHR) (g p : Nat) :
    ∀ c ∈ (Vulkan.is_device_suitable drv d surface g p).trace, c.isDeviceCreation = false := by
  intro c hc
  have hs := scan_families_trace_no_device_creation drv d surface (drv.queueFamilies d) 0
    UINT32_MAX (List.replicate (drv.queueFamilies d).length 0)
  unfold Vulkan.is_device_suitable Vulkan.unsupported_parameters at hc
  dsimp only at hc
  split_ifs at hc <;> first
    | (simp at hc; rcases hc with hc | hc | hc | hc | hc <;> subst hc <;> rfl)
    | (simp at hc; rcases hc with hc | hc | hc | hc <;> subst hc <;> rfl)
    | (split at hc <;>
        simp only [List.mem_append, List.mem_cons, List.mem_singleton, List.not_mem_nil,
          or_false] at hc <;>
        aesop)

/-- The loop of `pick_physical_device` issues no device creation. -/
theorem scan_devices_trace_no_device_creation (drv : Driver) (surface : VkSurfaceKHR) :
    ∀ (devs : List VkPhysicalDevice) (k g p : Nat),
      ∀ c ∈ (Vulkan.scan_devices drv surface devs k g p).trace, c.isDeviceCreation = false := by
  intro devs
  induction devs with
  | nil => intro k g p c hc; simp [Vulkan.scan_devices] at hc
  | cons d rest ih =>
    intro k g p c hc
    unfold Vulkan.scan_devices at hc
    dsimp only at hc
    split_ifs at hc
    · exact is_device_suitable_trace_no_device_creation drv d surface g p c hc
    · simp only [List.mem_append] at hc
      rcases hc with hc | hc
      · exact is_device_suitable_trace_no_device_creation drv d surface g p c hc
      · exact ih _ _ _ c hc

/-- The calls of `pick_physical_device` contain no device creation. -/
theorem pick_physical_device_trace_no_device_creation (drv : Driver) (inst : VkInstance)
    (surface : VkSurfaceKHR) (g p : Nat) :
    ∀ c ∈ (Vulkan.pick_physical_device drv inst surface g p).trace,
      c.isDeviceCreation = false := by
  intro c hc
  have he : ∀ c ∈ (Vulkan.enumerate_physical_devices drv inst).2, c.isDeviceCreation = false := by
    intro c hc
    unfold Vulkan.enumerate_physical_devices at hc
    split_ifs at hc <;> simp at hc <;> aesop
  have hs := scan_devices_trace_no_device_creation drv surface
    (Vulkan.enumerate_physical_devices drv inst).1 0 g p
  unfold Vulkan.pick_physical_device at hc
  dsimp only at hc
  split_ifs at hc
  · exact he c hc
  · simp only [List.mem_append, List.mem_singleton] at hc
    rcases hc with (hc | hc) | hc
    · exact he c hc
    · exact hs c hc
    · subst hc; rfl
  · simp only [List.mem_append] at hc
    rcases hc with hc | hc
    · exact he c hc
    · exact hs c hc

/-- C3: device selection is first-fit.  When the device at index `i` of the enumerated
sequence is suitable and no device before it is, `pick_physical_device` returns that
device, and the graphics and present family indices it reports are the ones
`is_device_suitable` computed for that device. -/
theorem pick_physical_device_first_fit (drv : Driver) (inst : VkInstance)
    (surface : VkSurfaceKHR) (g0 p0 i : Nat)
    (hi : i < (Vulkan.enumerate_physical_devices drv inst).1.length)
    (hsuit : (Vulkan.is_device_suitable drv
      ((Vulkan.enumerate_physical_devices drv inst).1.get ⟨i, hi⟩) surface g0 p0).ret = true)
    (hmin : ∀ j (hj : j < (Vulkan.enumerate_physical_devices drv inst).1.length), j < i →
      (Vulkan.is_device_suitable drv
        ((Vulkan.enumerate_physical_devices drv inst).1.get ⟨j, hj⟩) surface g0 p0).ret = false) :
    (Vulkan.pick_physical_device drv inst surface g0 p0).result
        = some ((Vulkan.enumerate_physical_devices drv inst).1.get ⟨i, hi⟩)
      ∧ (Vulkan.pick_physical_device drv inst surface g0 p0).selected_graphics_queue_family_index
        = (Vulkan.is_device_suitable drv
            ((Vulkan.enumerate_physical_devices drv inst).1.get ⟨i, hi⟩) surface g0
            p0).selected_graphics_queue_family_index
      ∧ (Vulkan.pick_physical_device drv inst surface g0 p0).selected_present_queue_family_index
        = (Vulkan.is_device_suitable drv
            ((Vulkan.enumerate_physical_devices drv inst).1.get ⟨i, hi⟩) surface g0
            p0).selected_present_queue_family_index := by
  obtain ⟨hidx, hg, hp⟩ := scan_devices_first_fit drv surface
    (Vulkan.enumerate_physical_devices drv inst).1 0 g0 p0 i hi hsuit hmin
  have hne : (Vulkan.enumerate_physical_devices drv inst).1.isEmpty = false := by
    cases hl : (Vulkan.enumerate_physical_devices drv inst).1 with
    | nil => rw [hl] at hi; simp at hi
    | cons a l => rfl
  have hlt : ¬ (Vulkan.scan_devices drv surface (Vulkan.enumerate_physical_devices drv inst).1 0
      g0 p0).selected_device_index ≥ (Vulkan.enumerate_physical_devices drv inst).1.length := by
    rw [hidx]; omega
  unfold Vulkan.pick_physical_device
  simp only [hne, Bool.false_eq_true, if_false, hlt]
  refine ⟨?_, hg, hp⟩
  rw [hidx, Nat.zero_add]
  exact List.get?_eq_get hi

/-- C3 on three devices of which only the second and third are suitable: the second is
selected, with the family indices of the second (1 and 1; the third would give 0
and 0). -/
theorem pick_physical_device_first_fit_witness :
    (Vulkan.is_device_suitable Fixture.driver 21 13 UINT32_MAX UINT32_MAX).ret = false
      ∧ (Vulkan.is_device_suitable Fixture.driver 22 13 UINT32_MAX UINT32_MAX).ret = true
      ∧ (Vulkan.is_device_suitable Fixture.driver 23 13 UINT32_MAX UINT32_MAX).ret = true
      ∧ (Vulkan.is_device_suitable Fixture.driver 23 13 UINT32_MAX
          UINT32_MAX).selected_graphics_queue_family_index = 0
      ∧ (Vulkan.pick_physical_device Fixture.driver 11 13 UINT32_MAX UINT32_MAX).result = some 22
      ∧ (Vulkan.pick_physical_device Fixture.driver 11 13 UINT32_MAX
          UINT32_MAX).selected_graphics_queue_family_index = 1
      ∧ (Vulkan.pick_physical_device Fixture.driver 11 13 UINT32_MAX
          UINT32_MAX).selected_present_queue_family_index = 1 := by
  have h := pick_physical_device_first_fit Fixture.driver 11 13 UINT32_MAX UINT32_MAX 1
    (by decide) (by decide) (by decide)
  exact ⟨by decide, by decide, by decide, by decide, h⟩

/-- The instance `create_instance` returns is the handle the driver wrote. -/
theorem create_instance_result_is_driver_handle (b : Build) (drv : Driver)
    (m : VkDebugUtilsMessengerEXT) (inst : VkInstance)
    (h : (Vulkan.create_instance b drv m).result = some inst) : inst = drv.createInstance.2 := by
  unfold Vulkan.create_instance at h
  dsimp only at h
  split_ifs at h <;> simp at h <;> exact h.symm

/-- C4: no suitable accelerator means failure.  When no device of the enumerated
sequence (the empty sequence included) is suitable, `pick_physical_device` returns the
empty optional; and when that holds for the instance and surface `startup` hands to it,
`startup` ends the process with `EXIT_FAILURE` and its calls contain no logical-device
creation. -/
theorem no_suitable_device_is_failure (b : Build) (drv : Driver)
    (app_context : Application.ApplicationContext) (m : VkDebugUtilsMessengerEXT)
    (inst : VkInstance) (surface : VkSurfaceKHR) (g0 p0 : Nat) :
    ((∀ d ∈ (Vulkan.enumerate_physical_devices drv inst).1,
        (Vulkan.is_device_suitable drv d surface g0 p0).ret = false) →
      (Vulkan.pick_physical_device drv inst surface g0 p0).result = none)
    ∧ ((∀ d ∈ (Vulkan.enumerate_physical_devices drv drv.createInstance.2).1,
        (Vulkan.is_device_suitable drv d drv.createWindowSurface.2 UINT32_MAX UINT32_MAX).ret
          = false) →
      (Application.startup b drv app_context m).outcome = Except.error EXIT_FAILURE
        ∧ ∀ c ∈ (Application.startup b drv app_context m).trace, c.isDeviceCreation = false) := by
  have hpick : ∀ (inst : VkInstance) (surface : VkSurfaceKHR) (g0 p0 : Nat),
      (∀ d ∈ (Vulkan.enumerate_physical_devices drv inst).1,
        (Vulkan.is_device_suitable drv d surface g0 p0).ret = false) →
      (Vulkan.pick_physical_device drv inst surface g0 p0).result = none := by
    intro inst surface g0 p0 h
    have hidx := scan_devices_none_suitable drv surface
      (Vulkan.enumerate_physical_devices drv inst).1 0 g0 p0 h
    unfold Vulkan.pick_physical_device
    dsimp only
    split_ifs with h1 h2
    · rfl
    · rfl
    · exact absurd (by rw [hidx]; omega) h2
  refine ⟨hpick inst surface g0 p0, ?_⟩
  intro h
  have hw := create_window_trace_no_device_creation drv
  have hci := create_instance_trace_no_device_creation b drv m
  have hpt := pick_physical_device_trace_no_device_creation drv drv.createInstance.2
    drv.createWindowSurface.2 UINT32_MAX UINT32_MAX
  have hnone := hpick drv.createInstance.2 drv.createWindowSurface.2 UINT32_MAX UINT32_MAX h
  unfold Application.startup
  dsimp only
  cases hcw : (Application.create_window drv).1 with
  | none =>
    refine ⟨rfl, ?_⟩
    intro c hc
    simp only [List.mem_append, List.mem_cons, List.mem_singleton, List.not_mem_nil,
      or_false] at hc
    rcases hc with (hc | hc) | hc
    · subst hc; rfl
    · exact hw c hc
    · subst hc; rfl
  | some window =>
    dsimp only
    cases hin : (Vulkan.create_instance b drv m).result with
    | none =>
      refine ⟨rfl, ?_⟩
      intro c hc
      simp only [List.mem_append, List.mem_cons, List.mem_singleton, List.not_mem_nil,
        or_false] at hc
      rcases hc with ((hc | hc) | hc) | hc
      · subst hc; rfl
      · exact hw c hc
      · exact hci c hc
      · subst hc; rfl
    | some inst' =>
      have hinst := create_instance_result_is_driver_handle b drv m inst' hin
      subst hinst
      dsimp only
      split_ifs with hsurf
      · refine ⟨rfl, ?_⟩
        intro c hc
        simp only [List.mem_append, List.mem_cons, List.mem_singleton, List.not_mem_nil,
          or_false] at hc
        rcases hc with (((hc | hc) | hc) | hc) | hc
        · subst hc; rfl
        · exact hw c hc
        · exact hci c hc
        · subst hc; rfl
        · subst hc; rfl
      · simp only [hnone]
        refine ⟨trivial, ?_⟩
        intro c hc
        simp only [List.mem_append, List.mem_cons, List.mem_singleton, List.not_mem_nil,
          or_false] at hc
        rcases hc with ((((hc | hc) | hc) | hc) | hc) | hc
        · subst hc; rfl
        · exact hw c hc
        · exact hci c hc
        · subst hc; rfl
        · exact hpt c hc
        · subst hc; rfl

/-- C4 on three integrated devices: none is suitable, `pick_physical_device` returns the
empty optional, and `startup` exits with failure right after the selection, without a
device-creation call. -/
theorem no_suitable_device_is_failure_witness :
    (Vulkan.pick_physical_device Fixture.integratedDriver 11 13 UINT32_MAX UINT32_MAX).result = none
      ∧ (Application.startup Fixture.build Fixture.integratedDriver { } 0).outcome
          = Except.error EXIT_FAILURE
      ∧ (∀ c ∈ (Application.startup Fixture.build Fixture.integratedDriver { } 0).trace,
          c.isDeviceCreation = false)
      ∧ (Application.startup Fixture.build Fixture.integratedDriver { } 0).trace.getLast?
          = some (Call.journal Level.critical Application.APP_TAG
              "Could not select physical device based on the chosen properties!" []) := by
  have h := no_suitable_device_is_failure Fixture.build Fixture.integratedDriver { } 0 11 13
    UINT32_MAX UINT32_MAX
  exact ⟨h.1 (by decide), (h.2 (by decide)).1, (h.2 (by decide)).2, by decide⟩

/-! ## Teardown (C5) -/

/-- C5 as stated fails.  `Fixture.ready` is the fully initialized context `startup`
leaves on `Fixture.driver` (debug messenger 12 installed); the teardown calls of
`shutdown` on it are not the specified sequence: the presentation surface is
destroyed first, before the idle-wait and the device, and not between the messenger
uninstall and the instance destroy. -/
theorem shutdown_is_not_in_specified_order :
    (Application.startup Fixture.build Fixture.driver { } 0).outcome = Except.ok Fixture.ready
      ∧ (Application.startup Fixture.build Fixture.driver { } 0).debug_utils_messenger = 12
      ∧ teardown_calls (Application.shutdown Fixture.build Fixture.driver Fixture.ready 12)
          ≠ specified_teardown Fixture.ready 12
      ∧ (teardown_calls (Application.shutdown Fixture.build Fixture.driver Fixture.ready 12)).head?
          = some (Call.vkDestroySurfaceKHR 11 13) := by
  refine ⟨rfl, rfl, by decide, by decide⟩

/-- C5 (amended): the teardown calls of `shutdown` are, in this order, surface destroy,
idle-wait, device destroy, messenger uninstall (issued when validation is enabled and
the driver resolves the uninstall entry point), instance destroy, window release; the
sequence is the same for every status `res` the idle-wait reports. -/
theorem shutdown_teardown_order (b : Build) (drv : Driver)
    (app_context : Application.ApplicationContext) (m : VkDebugUtilsMessengerEXT)
    (res : VkResult) :
    teardown_calls (Application.shutdown b { drv with deviceWaitIdle := res } app_context m)
      = [Call.vkDestroySurfaceKHR app_context.inst app_context.presentation_surface,
         Call.vkDeviceWaitIdle app_context.logical_device,
         Call.vkDestroyDevice app_context.logical_device]
        ++ (if Vulkan.validation_layers_enabled b = true
              ∧ drv.procAddr app_context.inst "vkDestroyDebugUtilsMessengerEXT" = true
            then [Call.vkDestroyDebugUtilsMessengerEXT app_context.inst m] else [])
        ++ [Call.vkDestroyInstance app_context.inst,
            Call.glfwDestroyWindow app_context.window] := by
  unfold Application.shutdown Vulkan.destroy_logical_device Vulkan.destroy_instance
    Vulkan.Debugging.cleanup Vulkan.Debugging.DestroyDebugUtilsMessengerEXT
    Application.destroy_window teardown_calls
  dsimp only
  by_cases hres : res = VK_SUCCESS <;>
    by_cases hv : Vulkan.validation_layers_enabled b = true <;>
    by_cases hp : drv.procAddr app_context.inst "vkDestroyDebugUtilsMessengerEXT" = true <;>
    simp [hres, hv, hp, List.filter, Call.isTeardown]

/-! ## Status translation (C6) -/

/-- C6: `error_string` returns a non-empty string for every status code of the API's
enumeration and the empty string for every other code. -/
theorem error_string_total :
    (∀ c ∈ VkResult_enumeration, Vulkan.error_string c ≠ "")
      ∧ (∀ c : VkResult, c ∉ VkResult_enumeration → Vulkan.error_string c = "") := by
  constructor
  · decide
  · intro c hc
    simp only [VkResult_enumeration, List.mem_cons, List.mem_singleton, not_or,
      List.mem_nil_iff, or_false] at hc
    simp [Vulkan.error_string, hc]

/-- C6 on a code of the enumeration and on the code 17, which is outside it. -/
theorem error_string_total_witness :
    Vulkan.error_string VK_ERROR_DEVICE_LOST ≠ "" ∧ Vulkan.error_string 17 = "" :=
  ⟨error_string_total.1 VK_ERROR_DEVICE_LOST (by decide), error_string_total.2 17 (by decide)⟩

/-! ## Validation layers and instance creation (C7, C8) -/

/-- The inner loop finds a layer exactly when some available layer has that name. -/
theorem layer_found_iff (layer_name : String) (available_layers : List VkLayerProperties) :
    Vulkan.layer_found layer_name available_layers = true ↔
      ∃ l ∈ available_layers, l.layerName = layer_name := by
  induction available_layers with
  | nil => simp [Vulkan.layer_found]
  | cons p rest ih =>
    simp only [Vulkan.layer_found, List.mem_cons, exists_eq_or_imp]
    by_cases h : layer_name = p.layerName
    · simp [h]
    · simp [h, ih, Ne.symm h]

/-- The outer loop succeeds exactly when every requested name is found. -/
theorem check_layers_iff (available_layers : List VkLayerProperties) (requested : List String) :
    Vulkan.check_layers available_layers requested = true ↔
      ∀ n ∈ requested, ∃ l ∈ available_layers, l.layerName = n := by
  induction requested with
  | nil => simp [Vulkan.check_layers]
  | cons n rest ih =>
    simp only [Vulkan.check_layers, List.mem_cons, forall_eq_or_imp]
    by_cases h : Vulkan.layer_found n available_layers = true
    · simp [h, ih, (layer_found_iff n available_layers).mp h]
    · have h2 : ¬ ∃ l ∈ available_layers, l.layerName = n :=
        fun hx => h ((layer_found_iff n available_layers).mpr hx)
      simp [h, h2]

/-- C7: `check_validation_layer_support` returns true if and only if every requested
name is the name of some layer the driver reports; hence one missing name makes it
false, and the empty request list gives true. -/
theorem check_validation_layer_support_all_or_nothing (drv : Driver) (requested : List String) :
    ((Vulkan.check_validation_layer_support drv requested).1 = true ↔
        ∀ n ∈ requested, ∃ l ∈ drv.layers, l.layerName = n)
      ∧ ((∃ n ∈ requested, ∀ l ∈ drv.layers, l.layerName ≠ n) →
          (Vulkan.check_validation_layer_support drv requested).1 = false)
      ∧ (Vulkan.check_validation_layer_support drv []).1 = true := by
  have hiff : (Vulkan.check_validation_layer_support drv requested).1 = true ↔
      ∀ n ∈ requested, ∃ l ∈ drv.layers, l.layerName = n :=
    check_layers_iff drv.layers requested
  refine ⟨hiff, ?_, rfl⟩
  rintro ⟨n, hn, hmiss⟩
  cases hres : (Vulkan.check_validation_layer_support drv requested).1 with
  | false => rfl
  | true =>
    obtain ⟨l, hl, hname⟩ := hiff.mp hres n hn
    exact absurd hname (hmiss l hl)

/-- C7 on the layers of `Fixture.driver`: a request for the one available layer
succeeds, and adding one missing name makes it fail. -/
theorem check_validation_layer_support_all_or_nothing_witness :
    (Vulkan.check_validation_layer_support Fixture.driver ["VK_LAYER_KHRONOS_validation"]).1 = true
      ∧ (Vulkan.check_validation_layer_support Fixture.driver
          ["VK_LAYER_KHRONOS_validation", "VK_LAYER_LUNARG_standard_validation"]).1 = false :=
  ⟨(check_validation_layer_support_all_or_nothing Fixture.driver
      ["VK_LAYER_KHRONOS_validation"]).1.mpr (by decide),
   (check_validation_layer_support_all_or_nothing Fixture.driver
      ["VK_LAYER_KHRONOS_validation", "VK_LAYER_LUNARG_standard_validation"]).2.1
      ⟨"VK_LAYER_LUNARG_standard_validation", by decide, by decide⟩⟩

/-- C8: when validation is enabled and a requested validation layer is missing from the
driver's layer list, `create_instance` returns the empty optional after the two layer
queries and one log entry: its calls contain no instance creation and no
debug-messenger registration, and the stored messenger handle is untouched. -/
theorem create_instance_fails_before_driver_creation (b : Build) (drv : Driver)
    (m : VkDebugUtilsMessengerEXT)
    (henabled : Vulkan.validation_layers_enabled b = true)
    (hmissing : ∃ n ∈ Vulkan.Debugging.validation_layers b, ∀ l ∈ drv.layers, l.layerName ≠ n) :
    (Vulkan.create_instance b drv m).result = none
      ∧ (Vulkan.create_instance b drv m).trace
          = [Call.vkEnumerateInstanceLayerProperties, Call.vkEnumerateInstanceLayerProperties,
             Call.journal Level.error Vulkan.VK_TAG "\x7b\x7d" ["Validation layers not supported!"]]
      ∧ (∀ c ∈ (Vulkan.create_instance b drv m).trace,
          c.isInstanceCreation = false ∧ c.isMessengerRegistration = false)
      ∧ (Vulkan.create_instance b drv m).debug_utils_messenger = m := by
  have hchk : (Vulkan.check_validation_layer_support drv (Vulkan.Debugging.validation_layers b)).1
      = false := by
    obtain ⟨n, hn, hmiss⟩ := hmissing
    cases hres : (Vulkan.check_validation_layer_support drv
        (Vulkan.Debugging.validation_layers b)).1 with
    | false => rfl
    | true =>
      obtain ⟨l, hl, hname⟩ :=
        (check_layers_iff drv.layers (Vulkan.Debugging.validation_layers b)).mp hres n hn
      exact absurd hname (hmiss l hl)
  have htrace : (Vulkan.check_validation_layer_support drv
      (Vulkan.Debugging.validation_layers b)).2
      = [Call.vkEnumerateInstanceLayerProperties, Call.vkEnumerateInstanceLayerProperties] := rfl
  unfold Vulkan.create_instance
  simp only [henabled, hchk, htrace, if_true, Bool.not_false, Bool.and_self]
  refine ⟨trivial, rfl, ?_, trivial⟩
  intro c hc
  simp only [List.cons_append, List.nil_append, List.mem_cons, List.mem_singleton,
    List.not_mem_nil, or_false] at hc
  rcases hc with hc | hc | hc <;> subst hc <;> simp [Call.isInstanceCreation, Call.isMessengerRegistration]

/-- C8 on a debug build whose driver lacks the Khronos validation layer. -/
theorem create_instance_fails_before_driver_creation_witness :
    (Vulkan.create_instance Fixture.build Fixture.noLayerDriver 0).result = none
      ∧ (∀ c ∈ (Vulkan.create_instance Fixture.build Fixture.noLayerDriver 0).trace,
          c.isInstanceCreation = false ∧ c.isMessengerRegistration = false) :=
  have h := create_instance_fails_before_driver_creation Fixture.build Fixture.noLayerDriver 0
    (by decide) ⟨"VK_LAYER_KHRONOS_validation", by decide, by decide⟩
  ⟨h.1, h.2.2.1⟩

/-! ## Suitability predicate (C9) -/

/-- C9: an accepted device passes all four capability checks (API major version at
least 1, maximum 2D image dimension at least 4096, discrete GPU, geometry shader); and
a device failing any of them is rejected with no queue-family or presentation-support
query among the calls and with both output parameters untouched. -/
theorem is_device_suitable_capability_checks (drv : Driver) (d : VkPhysicalDevice)
    (surface : VkSurfaceKHR) (g p : Nat) :
    ((Vulkan.is_device_suitable drv d surface g p).ret = true →
        VK_VERSION_MAJOR (drv.properties d).apiVersion ≥ 1
          ∧ (drv.properties d).maxImageDimension2D ≥ 4096
          ∧ (drv.properties d).deviceType = VK_PHYSICAL_DEVICE_TYPE_DISCRETE_GPU
          ∧ (drv.features d).geometryShader ≠ 0)
      ∧ (¬ (VK_VERSION_MAJOR (drv.properties d).apiVersion ≥ 1
            ∧ (drv.properties d).maxImageDimension2D ≥ 4096
            ∧ (drv.properties d).deviceType = VK_PHYSICAL_DEVICE_TYPE_DISCRETE_GPU
            ∧ (drv.features d).geometryShader ≠ 0) →
          (Vulkan.is_device_suitable drv d surface g p).ret = false
            ∧ (∀ c ∈ (Vulkan.is_device_suitable drv d surface g p).trace,
                c.isQueueQuery = false)
            ∧ (Vulkan.is_device_suitable drv d surface g p).selected_graphics_queue_family_index = g
            ∧ (Vulkan.is_device_suitable drv d surface g p).selected_present_queue_family_index
                = p) := by
  have hrej : ¬ (VK_VERSION_MAJOR (drv.properties d).apiVersion ≥ 1
        ∧ (drv.properties d).maxImageDimension2D ≥ 4096
        ∧ (drv.properties d).deviceType = VK_PHYSICAL_DEVICE_TYPE_DISCRETE_GPU
        ∧ (drv.features d).geometryShader ≠ 0) →
      (Vulkan.is_device_suitable drv d surface g p).ret = false
        ∧ (∀ c ∈ (Vulkan.is_device_suitable drv d surface g p).trace, c.isQueueQuery = false)
        ∧ (Vulkan.is_device_suitable drv d surface g p).selected_graphics_queue_family_index = g
        ∧ (Vulkan.is_device_suitable drv d surface g p).selected_present_queue_family_index
            = p := by
    intro hfail
    unfold Vulkan.is_device_suitable Vulkan.unsupported_parameters
    dsimp only
    by_cases h1 : VK_VERSION_MAJOR (drv.properties d).apiVersion < 1
        ∨ (drv.properties d).maxImageDimension2D < 4096
    · rw [if_pos h1]
      refine ⟨rfl, ?_, rfl, rfl⟩
      intro c hc
      simp only [List.cons_append, List.nil_append, List.mem_cons, List.mem_singleton,
        List.not_mem_nil, or_false] at hc
      rcases hc with hc | hc | hc | hc <;> subst hc <;> rfl
    · have h2 : (drv.properties d).deviceType ≠ VK_PHYSICAL_DEVICE_TYPE_DISCRETE_GPU
          ∨ (drv.features d).geometryShader = 0 := by
        by_contra hcon
        apply hfail
        push_neg at h1 hcon
        exact ⟨h1.1, h1.2, hcon.1, hcon.2⟩
      rw [if_neg h1, if_pos h2]
      refine ⟨rfl, ?_, rfl, rfl⟩
      intro c hc
      simp only [List.cons_append, List.nil_append, List.mem_cons, List.mem_singleton,
        List.not_mem_nil, or_false] at hc
      rcases hc with hc | hc | hc | hc <;> subst hc <;> rfl
  refine ⟨?_, hrej⟩
  intro hret
  by_contra hfail
  rw [(hrej hfail).1] at hret
  exact Bool.false_ne_true hret

/-- C9 on the integrated device 21 (rejected by the device-class check, no query issued)
and the discrete device 22 (accepted) of `Fixture.driver`. -/
theorem is_device_suitable_capability_checks_witness :
    ((Vulkan.is_device_suitable Fixture.driver 21 13 5 6).ret = false
        ∧ (∀ c ∈ (Vulkan.is_device_suitable Fixture.driver 21 13 5 6).trace,
            c.isQueueQuery = false))
      ∧ (Fixture.driver.properties 22).deviceType = VK_PHYSICAL_DEVICE_TYPE_DISCRETE_GPU :=
  ⟨⟨((is_device_suitable_capability_checks Fixture.driver 21 13 5 6).2 (by decide)).1,
    ((is_device_suitable_capability_checks Fixture.driver 21 13 5 6).2 (by decide)).2.1⟩,
   ((is_device_suitable_capability_checks Fixture.driver 22 13 5 6).1 (by decide)).2.2.1⟩

/-! ## Logical device (C10) -/

/-- C10: for two valid family indices, `create_logical_device` passes the driver one
device-creation call whose queue-creation requests are one per distinct family index
(the graphics index alone when both are equal, the graphics index followed by the
present index otherwise), each for one queue at priority 1.0. -/
theorem create_logical_device_queue_requests (drv : Driver) (d : VkPhysicalDevice) (g p : Nat)
    (hg : g ≠ UINT32_MAX) (hp : p ≠ UINT32_MAX) :
    ∃ create_info : VkDeviceCreateInfo,
      (Vulkan.create_logical_device drv d g p).2.filter Call.isDeviceCreation
          = [Call.vkCreateDevice d create_info]
        ∧ create_info.queueCreateInfoCount = create_info.pQueueCreateInfos.length
        ∧ create_info.pQueueCreateInfos.map VkDeviceQueueCreateInfo.queueFamilyIndex
            = (if g = p then [g] else [g, p])
        ∧ create_info.pQueueCreateInfos.length = (if g = p then 1 else 2)
        ∧ ∀ e ∈ create_info.pQueueCreateInfos, e.queueCount = 1 ∧ e.pQueuePriorities = [1] := by
  refine ⟨{ pQueueCreateInfos := Vulkan.queue_create_infos g p,
            queueCreateInfoCount := (Vulkan.queue_create_infos g p).length,
            ppEnabledExtensionNames := [VK_KHR_SWAPCHAIN_EXTENSION_NAME],
            enabledExtensionCount := 1 }, ?_, rfl, ?_, ?_, ?_⟩
  · unfold Vulkan.create_logical_device
    dsimp only
    split_ifs <;> simp [List.filter, Call.isDeviceCreation]
  · unfold Vulkan.queue_create_infos
    by_cases h : g = p <;> simp [hg, hp, h]
  · unfold Vulkan.queue_create_infos
    by_cases h : g = p <;> simp [hg, hp, h]
  · intro e he
    unfold Vulkan.queue_create_infos Vulkan.queue_priorities at he
    by_cases h : g = p <;> simp [hg, hp, h] at he
    · subst he; exact ⟨rfl, rfl⟩
    · rcases he with he | he <;> subst he <;> exact ⟨rfl, rfl⟩

/-- C10 on a split selection (families 0 and 2): two requests, for family 0 and for
family 2, each for one queue at priority 1.0. -/
theorem create_logical_device_queue_requests_witness :
    ∃ create_info : VkDeviceCreateInfo,
      (Vulkan.create_logical_device Fixture.driver 22 0 2).2.filter Call.isDeviceCreation
          = [Call.vkCreateDevice 22 create_info]
        ∧ create_info.queueCreateInfoCount = create_info.pQueueCreateInfos.length
        ∧ create_info.pQueueCreateInfos.map VkDeviceQueueCreateInfo.queueFamilyIndex
            = (if 0 = 2 then [0] else [0, 2])
        ∧ create_info.pQueueCreateInfos.length = (if 0 = 2 then 1 else 2)
        ∧ ∀ e ∈ create_info.pQueueCreateInfos, e.queueCount = 1 ∧ e.pQueuePriorities = [1] :=
  create_logical_device_queue_requests Fixture.driver 22 0 2 (by decide) (by decide)

/-! ## Uninstalling the debug messenger (C11) -/

/-- C11 as stated fails.  On `Fixture.driver` and instance 11: `cleanup` on the
never-installed state records two driver calls instead of leaving the state as it is,
and after an installation a second consecutive `cleanup` records a second destroy call
on the same handle 12, so two calls are not observably equal to one. -/
theorem cleanup_is_not_idempotent :
    Vulkan.Debugging.cleanup_on Fixture.driver 11 Observed.initial ≠ Observed.initial
      ∧ Vulkan.Debugging.cleanup_on Fixture.driver 11
          (Vulkan.Debugging.cleanup_on Fixture.driver 11
            (Vulkan.Debugging.setup_on Fixture.driver 11 Observed.initial))
        ≠ Vulkan.Debugging.cleanup_on Fixture.driver 11
            (Vulkan.Debugging.setup_on Fixture.driver 11 Observed.initial)
      ∧ ((Vulkan.Debugging.cleanup_on Fixture.driver 11
            (Vulkan.Debugging.cleanup_on Fixture.driver 11
              (Vulkan.Debugging.setup_on Fixture.driver 11 Observed.initial))).calls.filter
          fun c => decide (c = Call.vkDestroyDebugUtilsMessengerEXT 11 12)).length = 2 := by
  decide

/-- C11 (amended): `Debugging::cleanup` leaves the stored messenger handle as it was, and
on every state (installed, already uninstalled or never installed) it records the
lookup of the uninstall entry point followed, when the driver resolves it, by one
destroy call on the stored handle; two consecutive calls record those calls twice. -/
theorem cleanup_repeats_its_calls (drv : Driver) (inst : VkInstance) (s : Observed) :
    (Vulkan.Debugging.cleanup_on drv inst s).debug_utils_messenger = s.debug_utils_messenger
      ∧ (Vulkan.Debugging.cleanup_on drv inst s).calls
          = s.calls ++ (Call.vkGetInstanceProcAddr inst "vkDestroyDebugUtilsMessengerEXT"
              :: (if drv.procAddr inst "vkDestroyDebugUtilsMessengerEXT" = true
                  then [Call.vkDestroyDebugUtilsMessengerEXT inst s.debug_utils_messenger]
                  else []))
      ∧ (Vulkan.Debugging.cleanup_on drv inst
            (Vulkan.Debugging.cleanup_on drv inst s)).debug_utils_messenger
          = s.debug_utils_messenger
      ∧ (Vulkan.Debugging.cleanup_on drv inst (Vulkan.Debugging.cleanup_on drv inst s)).calls
          = s.calls ++ Vulkan.Debugging.cleanup drv inst s.debug_utils_messenger
              ++ Vulkan.Debugging.cleanup drv inst s.debug_utils_messenger := by
  refine ⟨rfl, ?_, rfl, rfl⟩
  unfold Vulkan.Debugging.cleanup_on Vulkan.Debugging.cleanup
    Vulkan.Debugging.DestroyDebugUtilsMessengerEXT
  by_cases h : drv.procAddr inst "vkDestroyDebugUtilsMessengerEXT" = true <;> simp [h]

/-! ## Extension listing (C12) -/

/-- C12 as stated fails.  On `Fixture.extensionCountErrorDriver` and on
`Fixture.extensionDataIncompleteDriver` the instance-creation call is issued and
succeeds (handle 11), one of the two extension queries reports a status other than
`VK_SUCCESS`, and `create_instance` returns the empty optional. -/
theorem create_instance_fails_on_extension_query_status :
    ((Vulkan.create_instance Fixture.build Fixture.extensionCountErrorDriver 0).trace.any
        Call.isInstanceCreation = true
      ∧ Fixture.extensionCountErrorDriver.createInstance = (VK_SUCCESS, 11)
      ∧ (Vulkan.create_instance Fixture.build Fixture.extensionCountErrorDriver 0).result = none)
    ∧ ((Vulkan.create_instance Fixture.build Fixture.extensionDataIncompleteDriver 0).trace.any
        Call.isInstanceCreation = true
      ∧ Fixture.extensionDataIncompleteDriver.createInstance = (VK_SUCCESS, 11)
      ∧ (Vulkan.create_instance Fixture.build Fixture.extensionDataIncompleteDriver 0).result
          = none) := by
  decide

/-- C12 (amended): once the instance-creation call has been issued and has succeeded,
`create_instance` returns that instance when both extension queries report
`VK_SUCCESS` and the empty optional when either reports another status; the
extensions listed never change the result. -/
theorem create_instance_after_creation (b : Build) (drv : Driver)
    (m : VkDebugUtilsMessengerEXT)
    (hcall : (Vulkan.create_instance b drv m).trace.any Call.isInstanceCreation = true)
    (hres : drv.createInstance.1 = VK_SUCCESS) :
    ((drv.extensionCountResult = VK_SUCCESS ∧ drv.extensionDataResult = VK_SUCCESS) →
        (Vulkan.create_instance b drv m).result = some drv.createInstance.2)
      ∧ (¬ (drv.extensionCountResult = VK_SUCCESS ∧ drv.extensionDataResult = VK_SUCCESS) →
        (Vulkan.create_instance b drv m).result = none)
      ∧ ∀ supported : List VkExtensionProperties,
          (Vulkan.create_instance b { drv with extensions := supported } m).result
            = (Vulkan.create_instance b drv m).result := by
  have hguard : ¬ ((Vulkan.validation_layers_enabled b
      && !(if Vulkan.validation_layers_enabled b = true then
            Vulkan.check_validation_layer_support drv (Vulkan.Debugging.validation_layers b)
          else (true, [])).1) = true) := by
    intro hg
    obtain ⟨c, hc, hic⟩ := List.any_eq_true.mp hcall
    unfold Vulkan.create_instance at hc
    dsimp only at hc
    rw [if_pos hg] at hc
    have hen : Vulkan.validation_layers_enabled b = true := by
      cases hv : Vulkan.validation_layers_enabled b <;> simp_all
    simp only [hen, if_true, Vulkan.check_validation_layer_support, List.cons_append,
      List.nil_append, List.mem_cons, List.mem_singleton, List.not_mem_nil, or_false] at hc
    rcases hc with hc | hc | hc <;> subst hc <;> simp [Call.isInstanceCreation] at hic
  have hne : ¬ drv.createInstance.1 ≠ VK_SUCCESS := by simp [hres]
  refine ⟨?_, ?_, ?_⟩
  · rintro ⟨hc, hd⟩
    unfold Vulkan.create_instance
    dsimp only
    rw [if_neg hguard, if_neg hne, if_neg (by simp [hc]), if_neg (by simp [hd])]
  · intro hfail
    unfold Vulkan.create_instance
    dsimp only
    rw [if_neg hguard, if_neg hne]
    by_cases hc : drv.extensionCountResult = VK_SUCCESS
    · have hd : drv.extensionDataResult ≠ VK_SUCCESS := fun hd => hfail ⟨hc, hd⟩
      rw [if_neg (by simp [hc]), if_pos hd]
    · rw [if_pos hc]
  · intro supported
    unfold Vulkan.create_instance Vulkan.check_validation_layer_support
    dsimp only
    split_ifs <;> rfl

/-- C12 (amended) on `Fixture.driver`, where both queries succeed, and on
`Fixture.extensionDataIncompleteDriver`, where the data query reports
`VK_INCOMPLETE`. -/
theorem create_instance_after_creation_witness :
    (Vulkan.create_instance Fixture.build Fixture.driver 0).result = some 11
      ∧ (Vulkan.create_instance Fixture.build Fixture.extensionDataIncompleteDriver 0).result
          = none :=
  ⟨(create_instance_after_creation Fixture.build Fixture.driver 0
      (by decide) rfl).1 (by decide),
   (create_instance_after_creation Fixture.build Fixture.extensionDataIncompleteDriver 0
      (by decide) rfl).2.1 (by decide)⟩

/-! ## Debug callback (C13) -/

/-- C13: `debugCallback` hands a message whose severity is the verbose, info, warning or
error flag to the logging sink once, at the level of the same name; hands over nothing
when the severity has none of the four flag bits; never hands over more than one entry;
and always returns `VK_FALSE`. -/
theorem debugCallback_severity_mapping (messageType : Nat) (pMessage : String) :
    Vulkan.Debugging.debugCallback VK_DEBUG_UTILS_MESSAGE_SEVERITY_VERBOSE_BIT_EXT messageType
        pMessage
        = (VK_FALSE, [Call.journal Level.verbose Vulkan.VK_TAG "\x7b\x7d" [pMessage]])
      ∧ Vulkan.Debugging.debugCallback VK_DEBUG_UTILS_MESSAGE_SEVERITY_INFO_BIT_EXT messageType
          pMessage
          = (VK_FALSE, [Call.journal Level.info Vulkan.VK_TAG "\x7b\x7d" [pMessage]])
      ∧ Vulkan.Debugging.debugCallback VK_DEBUG_UTILS_MESSAGE_SEVERITY_WARNING_BIT_EXT messageType
          pMessage
          = (VK_FALSE, [Call.journal Level.warning Vulkan.VK_TAG "\x7b\x7d" [pMessage]])
      ∧ Vulkan.Debugging.debugCallback VK_DEBUG_UTILS_MESSAGE_SEVERITY_ERROR_BIT_EXT messageType
          pMessage
          = (VK_FALSE, [Call.journal Level.error Vulkan.VK_TAG "\x7b\x7d" [pMessage]])
      ∧ (∀ messageSeverity : Nat,
          messageSeverity &&& VK_DEBUG_UTILS_MESSAGE_SEVERITY_VERBOSE_BIT_EXT = 0 →
          messageSeverity &&& VK_DEBUG_UTILS_MESSAGE_SEVERITY_INFO_BIT_EXT = 0 →
          messageSeverity &&& VK_DEBUG_UTILS_MESSAGE_SEVERITY_WARNING_BIT_EXT = 0 →
          messageSeverity &&& VK_DEBUG_UTILS_MESSAGE_SEVERITY_ERROR_BIT_EXT = 0 →
          Vulkan.Debugging.debugCallback messageSeverity messageType pMessage = (VK_FALSE, []))
      ∧ (∀ messageSeverity : Nat,
          (Vulkan.Debugging.debugCallback messageSeverity messageType pMessage).1 = VK_FALSE
            ∧ (Vulkan.Debugging.debugCallback messageSeverity messageType pMessage).2.length
                ≤ 1) := by
  refine ⟨rfl, rfl, rfl, rfl, ?_, ?_⟩
  · intro s hv hi hw he
    unfold Vulkan.Debugging.debugCallback
    simp [hv, hi, hw, he]
  · intro s
    unfold Vulkan.Debugging.debugCallback
    split_ifs <;> exact ⟨rfl, by simp⟩

/-- C13 on a warning message and on a message of severity 0, which has none of the four
flags. -/
theorem debugCallback_severity_mapping_witness :
    Vulkan.Debugging.debugCallback VK_DEBUG_UTILS_MESSAGE_SEVERITY_WARNING_BIT_EXT 2 "slow path"
        = (VK_FALSE, [Call.journal Level.warning Vulkan.VK_TAG "\x7b\x7d" ["slow path"]])
      ∧ Vulkan.Debugging.debugCallback 0 2 "slow path" = (VK_FALSE, []) :=
  ⟨(debugCallback_severity_mapping 2 "slow path").2.2.1,
   (debugCallback_severity_mapping 2 "slow path").2.2.2.2.1 0 (by decide) (by decide)
     (by decide) (by decide)⟩

/-! ## Accepted selections (C14) -/

/-- An accepted device passes the four capability checks. -/
theorem is_device_suitable_accepted_passes_checks (drv : Driver) (d : VkPhysicalDevice)
    (surface : VkSurfaceKHR) (g p : Nat)
    (h : (Vulkan.is_device_suitable drv d surface g p).ret = true) :
    passes_capability_checks drv d := by
  unfold Vulkan.is_device_suitable at h
  dsimp only at h
  by_cases h1 : VK_VERSION_MAJOR (drv.properties d).apiVersion < 1
      ∨ (drv.properties d).maxImageDimension2D < 4096
  · rw [if_pos h1] at h; exact absurd h (by simp)
  · by_cases h2 : (drv.properties d).deviceType ≠ VK_PHYSICAL_DEVICE_TYPE_DISCRETE_GPU
        ∨ (drv.features d).geometryShader = 0
    · rw [if_neg h1, if_pos h2] at h; exact absurd h (by simp)
    · push_neg at h1 h2
      exact ⟨h1.1, h1.2, h2.1, h2.2⟩

/-- What holds of every accepted selection: both indices are the same index of the
device's family table, and that family can present to the surface. -/
theorem is_device_suitable_accepted_selection (drv : Driver) (d : VkPhysicalDevice)
    (surface : VkSurfaceKHR) (g p : Nat)
    (h : (Vulkan.is_device_suitable drv d surface g p).ret = true) :
    (Vulkan.is_device_suitable drv d surface g p).selected_graphics_queue_family_index
        = (Vulkan.is_device_suitable drv d surface g p).selected_present_queue_family_index
      ∧ (Vulkan.is_device_suitable drv d surface g p).selected_present_queue_family_index
          < (drv.queueFamilies d).length
      ∧ drv.surfaceSupport d
          (Vulkan.is_device_suitable drv d surface g p).selected_present_queue_family_index
          surface ≠ 0 := by
  have hcap := is_device_suitable_accepted_passes_checks drv d surface g p h
  have hex : ∃ k, k < (drv.queueFamilies d).length ∧ drv.surfaceSupport d k surface ≠ 0 := by
    by_contra hno
    push_neg at hno
    have := is_device_suitable_rejects_without_present drv d surface g p hno
    rw [this] at h
    exact Bool.false_ne_true h
  classical
  have hk := Nat.find_spec hex
  have hmin : ∀ j < Nat.find hex, drv.surfaceSupport d j surface = 0 := by
    intro j hj
    have hnot := Nat.find_min hex hj
    by_contra hne
    exact hnot ⟨lt_trans hj hk.1, hne⟩
  obtain ⟨_, hg, hp⟩ := is_device_suitable_selects_first_present_family drv d surface g p
    (Nat.find hex) hcap hk.1 hk.2 hmin
  rw [hg, hp]
  exact ⟨rfl, hk.1, hk.2⟩

/-- C14, evaluated on a failing input.  The device of `Fixture.computeOnlyDriver` passes
the capability checks and has one family, compute only with presentation support, so
no family supports graphics.  `is_device_suitable` returns true with family 0 in both
roles, and `startup` takes its graphics queue from that family. -/
theorem device_without_graphics_family_is_accepted :
    passes_capability_checks Fixture.computeOnlyDriver 21
      ∧ graphics_families Fixture.computeOnlyDriver 21 = []
      ∧ (Vulkan.is_device_suitable Fixture.computeOnlyDriver 21 13 UINT32_MAX UINT32_MAX).ret = true
      ∧ (Vulkan.is_device_suitable Fixture.computeOnlyDriver 21 13 UINT32_MAX
          UINT32_MAX).selected_graphics_queue_family_index = 0
      ∧ family_at_supports_graphics Fixture.computeOnlyDriver 21
          (Vulkan.is_device_suitable Fixture.computeOnlyDriver 21 13 UINT32_MAX
            UINT32_MAX).selected_graphics_queue_family_index = false
      ∧ (Application.startup Fixture.build Fixture.computeOnlyDriver { } 0).outcome
          = Except.ok { window := 1, inst := 11, physical_device := 21, logical_device := 31,
                        presentation_surface := 13,
                        graphics_queue := { handle := 40, family_index := 0 },
                        present_queue := { handle := 40, family_index := 0 } } := by
  refine ⟨by decide, by decide, by decide, by decide, by decide, rfl⟩
